import Mathlib

/-! Local entity core of the AVDECC stack (entityImpl.hpp)

A shallow embedding of `LocalEntityImpl` (src/src/entity/entityImpl.hpp): the
entity-visible state with its setters, advertising control and shutdown, and
the static frame builders for AECP/ACMP commands and AECP responses.

Side effects are made explicit: every operation returns the list of events it
causes (calls on the protocol interface, acquisitions of the internal lock,
invocations of the caller's result handler), in program order. C++ exceptions
are values of type `Failure` carried by `Except`.
-/

namespace Avdecc

/-! ## Basic types -/

/-- A 64-bit entity identifier (`UniqueIdentifier`). -/
abbrev UniqueIdentifier := Nat

/-- A 48-bit Ethernet address (`networkInterface::MacAddress`). -/
abbrev MacAddress := Nat

/-- Index of an AVB interface (`model::AvbInterfaceIndex`). -/
abbrev AvbInterfaceIndex := Nat

/-- The error code returned by the protocol interface
(`protocol::ProtocolInterface::Error`), as its underlying value; `0` is
"no error", so that `!!error` is `error ≠ 0`. -/
abbrev Error := Nat

/-- The bit-set of entity capabilities (`EntityCapabilities`). -/
abbrev EntityCapabilities := Nat

/-- What a C++ `throw` raises, as far as the `catch` clauses of this file tell
failures apart: `std::invalid_argument`, or anything else. -/
inductive Failure
  | invalidArgument
  | other
deriving DecidableEq, Repr

/-- The dirty bits of the advertised fields (`SuperClass::AdvertiseFlag`), one
for each field written by the setters of this file. -/
inductive AdvertiseFlag
  | EntityCapabilities
  | AssociationID
  | ValidTime
  | GptpGrandmasterID
  | GptpDomainNumber
deriving DecidableEq, Repr

/-- A set of advertise flags as written in the source: the flags of the
initializer list `AdvertiseFlags{ ... }`. -/
abbrev AdvertiseFlags := List AdvertiseFlag

/-! ## Entity state

`SuperClass` (`LocalEntity`) is declared in `la/avdecc/internals/entity.hpp`,
which is not part of this file; its fields and plain setters follow the data
model of the specification. -/

/-- Modelled from the spec: the per-network-interface information of a local
entity (MAC address, valid-time, gPTP grandmaster id, gPTP domain number),
declared in entity.hpp. -/
structure InterfaceInformation where
  macAddress : MacAddress
  validTime : Nat
  gptpGrandmasterID : UniqueIdentifier
  gptpDomainNumber : Nat
deriving DecidableEq, Repr

/-- Modelled from the spec: the entity-visible mutable state owned by the
base class `SuperClass` (declared in entity.hpp): capabilities bit-set,
association identifier, and the information of each interface. -/
structure LocalEntity where
  entityCapabilities : EntityCapabilities
  associationID : UniqueIdentifier
  interfacesInformation : AvbInterfaceIndex → InterfaceInformation

namespace LocalEntity

/-- Whether an optional interface scope covers interface `j`: `std::nullopt`
stands for all interfaces. -/
def inScope (interfaceIndex : Option AvbInterfaceIndex) (j : AvbInterfaceIndex) : Bool :=
  match interfaceIndex with
  | none => true
  | some i => i == j

/-- Modelled from the spec: `SuperClass::setEntityCapabilities` (entity.hpp),
the plain field write. -/
def setEntityCapabilities (e : LocalEntity) (entityCapabilities : EntityCapabilities) :
    LocalEntity :=
  { e with entityCapabilities := entityCapabilities }

/-- Modelled from the spec: `SuperClass::setAssociationID` (entity.hpp), the
plain field write. -/
def setAssociationID (e : LocalEntity) (associationID : UniqueIdentifier) : LocalEntity :=
  { e with associationID := associationID }

/-- Modelled from the spec: `SuperClass::setValidTime` (entity.hpp), the plain
field write "on the specified interfaceIndex if set, otherwise on all
interfaces". -/
def setValidTime (e : LocalEntity) (validTime : Nat)
    (interfaceIndex : Option AvbInterfaceIndex) : LocalEntity :=
  { e with interfacesInformation := fun j =>
      if inScope interfaceIndex j then
        { e.interfacesInformation j with validTime := validTime }
      else e.interfacesInformation j }

/-- Modelled from the spec: `SuperClass::setGptpGrandmasterID` (entity.hpp),
the plain field write on one interface. -/
def setGptpGrandmasterID (e : LocalEntity) (gptpGrandmasterID : UniqueIdentifier)
    (interfaceIndex : AvbInterfaceIndex) : LocalEntity :=
  { e with interfacesInformation := fun j =>
      if interfaceIndex == j then
        { e.interfacesInformation j with gptpGrandmasterID := gptpGrandmasterID }
      else e.interfacesInformation j }

/-- Modelled from the spec: `SuperClass::setGptpDomainNumber` (entity.hpp),
the plain field write on one interface. -/
def setGptpDomainNumber (e : LocalEntity) (gptpDomainNumber : Nat)
    (interfaceIndex : AvbInterfaceIndex) : LocalEntity :=
  { e with interfacesInformation := fun j =>
      if interfaceIndex == j then
        { e.interfacesInformation j with gptpDomainNumber := gptpDomainNumber }
      else e.interfacesInformation j }

end LocalEntity

/-! ## Frames

The frame classes (`EtherLayer2`, `Aecpdu`, `AemAecpdu`, `AaAecpdu`,
`MvuAecpdu`, `Acmpdu`) are declared in the protocol headers, outside this
file. Only the logical fields that this file reads or writes are kept. -/

/-- Modelled from the spec: the fields common to every AECP frame, the
Ethernet addressing (`EtherLayer2`) and the AECP header (`Aecpdu`). -/
structure Aecpdu where
  srcAddress : MacAddress
  destAddress : MacAddress
  messageType : Nat
  status : Nat
  targetEntityID : UniqueIdentifier
  controllerEntityID : UniqueIdentifier
  sequenceID : Nat
deriving DecidableEq, Repr

/-- Modelled from the spec: an AEM frame (`protocol::AemAecpdu`): the AECP
header, the unsolicited bit, the command type and the command-specific
bytes. -/
structure AemAecpdu extends Aecpdu where
  unsolicited : Bool
  commandType : Nat
  commandSpecificData : List Nat
deriving DecidableEq, Repr

/-- Modelled from the spec: one typed element of an Address-Access payload
(`addressAccess::Tlv`). -/
structure Tlv where
  mode : Nat
  address : Nat
  memoryData : List Nat
deriving DecidableEq, Repr

/-- Modelled from the spec: an Address-Access frame (`protocol::AaAecpdu`):
the AECP header and the list of TLVs, in the order they were added. -/
structure AaAecpdu extends Aecpdu where
  tlvData : List Tlv
deriving DecidableEq, Repr

/-- Modelled from the spec: a Vendor-Unique frame (`protocol::MvuAecpdu`): the
AECP header, the command type and the command-specific bytes. -/
structure MvuAecpdu extends Aecpdu where
  commandType : Nat
  commandSpecificData : List Nat
deriving DecidableEq, Repr

/-- An AECP frame of any sub-protocol, as seen through `Aecpdu const&` or
`Aecpdu::UniquePointer`: the dynamic type is the constructor. -/
inductive AnyAecpdu
  | aem (frame : AemAecpdu)
  | aa (frame : AaAecpdu)
  | mvu (frame : MvuAecpdu)
deriving DecidableEq, Repr

/-- Modelled from the spec: an ACMP frame (`protocol::Acmpdu`). -/
structure Acmpdu where
  srcAddress : MacAddress
  destAddress : MacAddress
  streamID : Nat
  messageType : Nat
  status : Nat
  controllerEntityID : UniqueIdentifier
  talkerEntityID : UniqueIdentifier
  listenerEntityID : UniqueIdentifier
  talkerUniqueID : Nat
  listenerUniqueID : Nat
  streamDestAddress : MacAddress
  connectionCount : Nat
  sequenceID : Nat
  flags : Nat
  streamVlanID : Nat
deriving DecidableEq, Repr

namespace AnyAecpdu

/-- The AECP header of a frame of any sub-protocol (the `Aecpdu` base
object). -/
def toAecpdu : AnyAecpdu → Aecpdu
  | aem frame => frame.toAecpdu
  | aa frame => frame.toAecpdu
  | mvu frame => frame.toAecpdu

/-- Rewrites the AECP header of a frame and leaves the fields of the derived
class alone: what a setter of the base class does through a base reference
(`static_cast<protocol::EtherLayer2&>(*response)`,
`static_cast<protocol::GenericAecpdu&>(*response)`). -/
def modifyHeader (f : Aecpdu → Aecpdu) : AnyAecpdu → AnyAecpdu
  | aem frame => aem { frame with toAecpdu := f frame.toAecpdu }
  | aa frame => aa { frame with toAecpdu := f frame.toAecpdu }
  | mvu frame => mvu { frame with toAecpdu := f frame.toAecpdu }

def getSrcAddress (frame : AnyAecpdu) : MacAddress := frame.toAecpdu.srcAddress
def getDestAddress (frame : AnyAecpdu) : MacAddress := frame.toAecpdu.destAddress
def getMessageType (frame : AnyAecpdu) : Nat := frame.toAecpdu.messageType
def getStatus (frame : AnyAecpdu) : Nat := frame.toAecpdu.status
def getTargetEntityID (frame : AnyAecpdu) : UniqueIdentifier := frame.toAecpdu.targetEntityID
def getControllerEntityID (frame : AnyAecpdu) : UniqueIdentifier :=
  frame.toAecpdu.controllerEntityID
def getSequenceID (frame : AnyAecpdu) : Nat := frame.toAecpdu.sequenceID

def setSrcAddress (frame : AnyAecpdu) (srcAddress : MacAddress) : AnyAecpdu :=
  frame.modifyHeader fun h => { h with srcAddress := srcAddress }
def setDestAddress (frame : AnyAecpdu) (destAddress : MacAddress) : AnyAecpdu :=
  frame.modifyHeader fun h => { h with destAddress := destAddress }
def setMessageType (frame : AnyAecpdu) (messageType : Nat) : AnyAecpdu :=
  frame.modifyHeader fun h => { h with messageType := messageType }
def setStatus (frame : AnyAecpdu) (status : Nat) : AnyAecpdu :=
  frame.modifyHeader fun h => { h with status := status }

end AnyAecpdu

/-! ## Protocol constants

Declared in `protocolDefines.hpp`, outside this file. -/

namespace AecpMessageType

/-- Modelled from the spec: the AECP message types named in this file; a
response is "the next value after its paired command" (values of
IEEE 1722.1). -/
def AemCommand : Nat := 0
def AemResponse : Nat := 1
def AddressAccessCommand : Nat := 2
def AddressAccessResponse : Nat := 3
def VendorUniqueCommand : Nat := 6
def VendorUniqueResponse : Nat := 7

end AecpMessageType

/-- Modelled from the spec: `protocol::AecpStatus::Success`. -/
def AecpStatus.Success : Nat := 0

/-- Modelled from the spec: `protocol::AcmpStatus::Success`. -/
def AcmpStatus.Success : Nat := 0

/-- Modelled from the spec: `ConnectionFlags::None`, the empty flag set. -/
def ConnectionFlags.None : Nat := 0

/-! ## Command status

"One closed enumeration per protocol family; always includes at least
Success, ProtocolError, InternalError, and a transport-error-mapped subset
(timeout, no such entity, not supported, network error, etc.)". The
enumerations are declared in entity.hpp; the values not named by the
specification are kept as `Other`. -/

/-- Modelled from the spec: `LocalEntity::AemCommandStatus`. -/
inductive AemCommandStatus
  | Success | ProtocolError | InternalError
  | TimedOut | UnknownEntity | NotSupported | NetworkError
  | Other (value : Nat)
deriving DecidableEq, Repr

/-- Modelled from the spec: `LocalEntity::AaCommandStatus`. -/
inductive AaCommandStatus
  | Success | ProtocolError | InternalError
  | TimedOut | UnknownEntity | NotSupported | NetworkError
  | Other (value : Nat)
deriving DecidableEq, Repr

/-- Modelled from the spec: `LocalEntity::MvuCommandStatus`. -/
inductive MvuCommandStatus
  | Success | ProtocolError | InternalError
  | TimedOut | UnknownEntity | NotSupported | NetworkError
  | Other (value : Nat)
deriving DecidableEq, Repr

/-- Modelled from the spec: `LocalEntity::ControlStatus`. -/
inductive ControlStatus
  | Success | ProtocolError | InternalError
  | TimedOut | UnknownEntity | NotSupported | NetworkError
  | Other (value : Nat)
deriving DecidableEq, Repr

/-! ## Frame layer

What this file uses of the frame classes without defining it. -/

/-- Modelled from the spec: the parts of the frame classes declared outside
this file. `create()` either raises or yields a fresh frame whose field values
are those of the class's constructor; the payload setters of AEM and
Vendor-Unique frames reject a payload longer than the protocol's maximum size;
`addTlv` may reject a TLV; `AecpMessageType::value_type` is an unsigned
integer type of some bit width. -/
structure FrameLayer where
  createAemAecpdu : Except Failure AemAecpdu
  createAaAecpdu : Except Failure AaAecpdu
  createMvuAecpdu : Except Failure MvuAecpdu
  createAcmpdu : Except Failure Acmpdu
  aemMaximumPayloadLength : Nat
  mvuMaximumPayloadLength : Nat
  acceptsTlv : AaAecpdu → Tlv → Bool
  messageTypeBits : Nat

/-- Modelled from the spec: `AemAecpdu::setCommandSpecificData`, which stores
the payload, or raises `std::invalid_argument` when the payload exceeds the
maximum size. -/
def AemAecpdu.setCommandSpecificData (layer : FrameLayer) (frame : AemAecpdu)
    (payload : List Nat) : Except Failure AemAecpdu :=
  if payload.length > layer.aemMaximumPayloadLength then .error .invalidArgument
  else .ok { frame with commandSpecificData := payload }

/-- Modelled from the spec: `MvuAecpdu::setCommandSpecificData`, which stores
the payload, or raises `std::invalid_argument` when the payload exceeds the
maximum size. -/
def MvuAecpdu.setCommandSpecificData (layer : FrameLayer) (frame : MvuAecpdu)
    (payload : List Nat) : Except Failure MvuAecpdu :=
  if payload.length > layer.mvuMaximumPayloadLength then .error .invalidArgument
  else .ok { frame with commandSpecificData := payload }

/-- Modelled from the spec: `AaAecpdu::addTlv`, which appends the TLV to the
frame, or raises `std::invalid_argument` when the frame rejects it. -/
def AaAecpdu.addTlv (layer : FrameLayer) (frame : AaAecpdu) (tlv : Tlv) :
    Except Failure AaAecpdu :=
  if layer.acceptsTlv frame tlv then .ok { frame with tlvData := frame.tlvData ++ [tlv] }
  else .error .invalidArgument

/-- The loop `for (auto const& tlv : tlvs) aa->addTlv(tlv);` of
`sendAaAecpCommand`: the first rejected TLV ends it. -/
def AaAecpdu.addTlvs (layer : FrameLayer) (frame : AaAecpdu) : List Tlv → Except Failure AaAecpdu
  | [] => .ok frame
  | tlv :: tlvs =>
    match frame.addTlv layer tlv with
    | .error f => .error f
    | .ok next => AaAecpdu.addTlvs layer next tlvs

/-! ## The protocol interface (transport)

`protocol::ProtocolInterface` is an external collaborator. Each of its
operations is a function of the arguments of the call; what the operation
does besides returning is outside this development, except for the calls it
makes on the completion closure it is given. -/

/-- What a send-and-correlate call of the transport does, seen from the
sender: the calls `(response, error)` it makes on the completion closure
before it returns, and then its return value or the failure it raises. -/
structure SendReply (Response : Type) where
  completions : List (Option Response × Error)
  result : Except Failure Error

/-- Modelled from the spec: the operations consumed from the transport. -/
structure ProtocolInterface where
  getMacAddress : MacAddress
  enableEntityAdvertising : LocalEntity → Option AvbInterfaceIndex → Error
  disableEntityAdvertising : LocalEntity → Option AvbInterfaceIndex → Error
  setEntityNeedsAdvertise : LocalEntity → AdvertiseFlags → Option AvbInterfaceIndex → Error
  unregisterLocalEntity : LocalEntity → Error
  sendAecpCommand : AnyAecpdu → MacAddress → SendReply AnyAecpdu
  sendAcmpCommand : Acmpdu → SendReply Acmpdu
  sendAecpResponse : AnyAecpdu → MacAddress → Except Failure Error

/-! ## Events -/

/-- The observable steps of the operations of this file, in program order:
the internal lock `_lock`, the calls on the protocol interface, the warning
log, and the invocations of the caller's `onResult` handler.

Modelled from the spec: `utils::invokeProtectedHandler` is declared outside
this file; it invokes the given handler once with the given arguments and
discards any failure the handler raises, so one call of it is one
`on...Result` event and raises nothing. -/
inductive Event
  | acquireInternalLock
  | releaseInternalLock
  | lock
  | unlock
  | enableEntityAdvertising (interfaceIndex : Option AvbInterfaceIndex)
  | disableEntityAdvertising (interfaceIndex : Option AvbInterfaceIndex)
  | setEntityNeedsAdvertise (flags : AdvertiseFlags) (interfaceIndex : Option AvbInterfaceIndex)
  | unregisterLocalEntity
  | sendAecpCommand (frame : AnyAecpdu) (targetMacAddress : MacAddress)
  | sendAcmpCommand (frame : Acmpdu)
  | sendAecpResponse (frame : AnyAecpdu) (targetMacAddress : MacAddress)
  | logWarn (entityID : UniqueIdentifier)
  | onAemResult (response : Option AnyAecpdu) (status : AemCommandStatus)
  | onAaResult (response : Option AnyAecpdu) (status : AaCommandStatus)
  | onMvuResult (response : Option AnyAecpdu) (status : MvuCommandStatus)
  | onAcmpResult (response : Option Acmpdu) (status : ControlStatus)
deriving DecidableEq, Repr

namespace Event

/-- Whether the event is an invocation of the caller's result handler. -/
def isResult : Event → Bool
  | onAemResult _ _ => true
  | onAaResult _ _ => true
  | onMvuResult _ _ => true
  | onAcmpResult _ _ => true
  | _ => false

/-- Whether the event is a call of a send operation of the transport. -/
def isSend : Event → Bool
  | sendAecpCommand _ _ => true
  | sendAcmpCommand _ => true
  | sendAecpResponse _ _ => true
  | _ => false

/-- Whether the event is a call on the protocol interface. -/
def isTransportCall : Event → Bool
  | lock => true
  | unlock => true
  | enableEntityAdvertising _ => true
  | disableEntityAdvertising _ => true
  | setEntityNeedsAdvertise _ _ => true
  | unregisterLocalEntity => true
  | sendAecpCommand _ _ => true
  | sendAcmpCommand _ => true
  | sendAecpResponse _ _ => true
  | _ => false

end Event

/-! ## Local entity core (`LocalEntityImpl`)

Each operation takes the transport and the entity state, and returns the new
state with the events of the call. -/

namespace LocalEntityImpl

/-- The method `enableEntityAdvertising`: the valid-time is
`static_cast<std::uint8_t>(availableDuration / 2)`, written through the base
class setter; the result is `!error` of the transport's call. -/
def enableEntityAdvertising (pi : ProtocolInterface) (e : LocalEntity)
    (availableDuration : Nat) (interfaceIndex : Option AvbInterfaceIndex) :
    Bool × LocalEntity × List Event :=
  let validTime := (availableDuration / 2) % 2 ^ 8
  let e := e.setValidTime validTime interfaceIndex
  (pi.enableEntityAdvertising e interfaceIndex == 0, e,
    [Event.enableEntityAdvertising interfaceIndex])

/-- The method `disableEntityAdvertising`. -/
def disableEntityAdvertising (_pi : ProtocolInterface) (e : LocalEntity)
    (interfaceIndex : Option AvbInterfaceIndex) : LocalEntity × List Event :=
  (e, [Event.disableEntityAdvertising interfaceIndex])

/-- The method `setEntityCapabilities`: "Sets the entity capabilities and flag
for announcement". -/
def setEntityCapabilities (_pi : ProtocolInterface) (e : LocalEntity)
    (entityCapabilities : EntityCapabilities) : LocalEntity × List Event :=
  let e := e.setEntityCapabilities entityCapabilities
  (e, [Event.acquireInternalLock,
       Event.setEntityNeedsAdvertise [AdvertiseFlag.EntityCapabilities] none,
       Event.releaseInternalLock])

/-- The method `setAssociationID`: "Sets the association unique identifier and
flag for announcement". -/
def setAssociationID (_pi : ProtocolInterface) (e : LocalEntity)
    (associationID : UniqueIdentifier) : LocalEntity × List Event :=
  let e := e.setAssociationID associationID
  (e, [Event.acquireInternalLock,
       Event.setEntityNeedsAdvertise [AdvertiseFlag.AssociationID] none,
       Event.releaseInternalLock])

/-- The method `setValidTime`: "Sets the valid time value on the specified
interfaceIndex if set, otherwise on all interfaces, and flag for
announcement". The argument is a `std::uint8_t`. -/
def setValidTime (_pi : ProtocolInterface) (e : LocalEntity) (validTime : Nat)
    (interfaceIndex : Option AvbInterfaceIndex) : LocalEntity × List Event :=
  let e := e.setValidTime validTime interfaceIndex
  (e, [Event.acquireInternalLock,
       Event.setEntityNeedsAdvertise [AdvertiseFlag.ValidTime] interfaceIndex,
       Event.releaseInternalLock])

/-- The method `setGptpGrandmasterID`: "Sets the gptp grandmaster unique
identifier and flag for announcement". -/
def setGptpGrandmasterID (_pi : ProtocolInterface) (e : LocalEntity)
    (gptpGrandmasterID : UniqueIdentifier) (interfaceIndex : AvbInterfaceIndex) :
    LocalEntity × List Event :=
  let e := e.setGptpGrandmasterID gptpGrandmasterID interfaceIndex
  (e, [Event.acquireInternalLock,
       Event.setEntityNeedsAdvertise [AdvertiseFlag.GptpGrandmasterID] (some interfaceIndex),
       Event.releaseInternalLock])

/-- The method `setGptpDomainNumber`: "Sets th gptp domain number and flag for
announcement". -/
def setGptpDomainNumber (_pi : ProtocolInterface) (e : LocalEntity)
    (gptpDomainNumber : Nat) (interfaceIndex : AvbInterfaceIndex) :
    LocalEntity × List Event :=
  let e := e.setGptpDomainNumber gptpDomainNumber interfaceIndex
  (e, [Event.acquireInternalLock,
       Event.setEntityNeedsAdvertise [AdvertiseFlag.GptpDomainNumber] (some interfaceIndex),
       Event.releaseInternalLock])

/-- The protected method `shutdown`: the lock guard on the protocol interface
spans the whole body, advertising is disabled, then the entity is
unregistered and the outcome of that call is dropped ("Ignore errors"). -/
def shutdown (pi : ProtocolInterface) (e : LocalEntity) : LocalEntity × List Event :=
  let (e, disableEvents) := disableEntityAdvertising pi e none
  let _error := pi.unregisterLocalEntity e
  (e, [Event.lock] ++ disableEvents ++ [Event.unregisterLocalEntity] ++ [Event.unlock])

/-- The destructor of `LocalEntityGuard`: it calls `SuperClass::shutdown()`. -/
def guardDestructor (pi : ProtocolInterface) (e : LocalEntity) : LocalEntity × List Event :=
  shutdown pi e

/-! ### Command senders

The translators `convertErrorTo...Status` are declared in this file and
defined in `localEntityImpl.ipp`; they are parameters. A call
`utils::invokeProtectedHandler(onResult, response, status)` is the event
`on...Result response status`. -/

/-- The completion closure that `sendAemAecpCommand` hands to the transport:
the events of one call of it with `(response, error)`. -/
def aemCompletion (convertErrorToAemCommandStatus : Error → AemCommandStatus)
    (response : Option AnyAecpdu) (error : Error) : List Event :=
  [Event.onAemResult response (convertErrorToAemCommandStatus error)]

/-- The completion closure that `sendAaAecpCommand` hands to the transport. -/
def aaCompletion (convertErrorToAaCommandStatus : Error → AaCommandStatus)
    (response : Option AnyAecpdu) (error : Error) : List Event :=
  [Event.onAaResult response (convertErrorToAaCommandStatus error)]

/-- The completion closure that `sendMvuAecpCommand` hands to the transport. -/
def mvuCompletion (convertErrorToMvuCommandStatus : Error → MvuCommandStatus)
    (response : Option AnyAecpdu) (error : Error) : List Event :=
  [Event.onMvuResult response (convertErrorToMvuCommandStatus error)]

/-- The completion closure that `sendAcmpCommand` hands to the transport. -/
def acmpCompletion (convertErrorToControlStatus : Error → ControlStatus)
    (response : Option Acmpdu) (error : Error) : List Event :=
  [Event.onAcmpResult response (convertErrorToControlStatus error)]

/-- The events of the calls that the transport makes on the completion closure
during a send-and-correlate call. -/
def runCompletions {Response : Type} (closure : Option Response → Error → List Event)
    (completions : List (Option Response × Error)) : List Event :=
  (completions.map fun c => closure c.1 c.2).flatten

/-- The first part of the `try` block of `sendAemAecpCommand`, "Build
AEM-AECPDU frame": the frame that will be submitted, or the failure raised
while building it. -/
def buildAemAecpCommand (layer : FrameLayer) (pi : ProtocolInterface)
    (controllerEntityID targetEntityID : UniqueIdentifier) (targetMacAddress : MacAddress)
    (commandType : Nat) (payload : List Nat) : Except Failure AemAecpdu :=
  match layer.createAemAecpdu with
  | .error failure => .error failure
  | .ok aem =>
    let aem := { aem with srcAddress := pi.getMacAddress }
    let aem := { aem with destAddress := targetMacAddress }
    let aem := { aem with messageType := AecpMessageType.AemCommand }
    let aem := { aem with status := AecpStatus.Success }
    let aem := { aem with targetEntityID := targetEntityID }
    let aem := { aem with controllerEntityID := controllerEntityID }
    let aem := { aem with unsolicited := false }
    let aem := { aem with commandType := commandType }
    aem.setCommandSpecificData layer payload

/-- The `try` block of `sendAemAecpCommand`: its events, and how it ends. -/
def sendAemAecpCommandBody (layer : FrameLayer)
    (convertErrorToAemCommandStatus : Error → AemCommandStatus) (pi : ProtocolInterface)
    (controllerEntityID targetEntityID : UniqueIdentifier) (targetMacAddress : MacAddress)
    (commandType : Nat) (payload : List Nat) : List Event × Except Failure Unit :=
  match buildAemAecpCommand layer pi controllerEntityID targetEntityID targetMacAddress
      commandType payload with
  | .error failure => ([], .error failure)
  | .ok aem =>
    let reply := pi.sendAecpCommand (.aem aem) targetMacAddress
    let events := Event.sendAecpCommand (.aem aem) targetMacAddress ::
      runCompletions (aemCompletion convertErrorToAemCommandStatus) reply.completions
    match reply.result with
    | .error failure => (events, .error failure)
    | .ok error =>
      if error ≠ 0 then
        (events ++ [Event.onAemResult none (convertErrorToAemCommandStatus error)], .ok ())
      else (events, .ok ())

/-- The static method `sendAemAecpCommand`: the `try` block and its two
`catch` clauses. -/
def sendAemAecpCommand (layer : FrameLayer)
    (convertErrorToAemCommandStatus : Error → AemCommandStatus) (pi : ProtocolInterface)
    (controllerEntityID targetEntityID : UniqueIdentifier) (targetMacAddress : MacAddress)
    (commandType : Nat) (payload : List Nat) : List Event :=
  match sendAemAecpCommandBody layer convertErrorToAemCommandStatus pi controllerEntityID
      targetEntityID targetMacAddress commandType payload with
  | (events, .ok _) => events
  | (events, .error .invalidArgument) =>
    events ++ [Event.onAemResult none AemCommandStatus.ProtocolError]
  | (events, .error .other) =>
    events ++ [Event.onAemResult none AemCommandStatus.InternalError]

/-- The first part of the `try` block of `sendAaAecpCommand`, "Build
AA-AECPDU frame". -/
def buildAaAecpCommand (layer : FrameLayer) (pi : ProtocolInterface)
    (controllerEntityID targetEntityID : UniqueIdentifier) (targetMacAddress : MacAddress)
    (tlvs : List Tlv) : Except Failure AaAecpdu :=
  match layer.createAaAecpdu with
  | .error failure => .error failure
  | .ok aa =>
    let aa := { aa with srcAddress := pi.getMacAddress }
    let aa := { aa with destAddress := targetMacAddress }
    let aa := { aa with messageType := AecpMessageType.AddressAccessCommand }
    let aa := { aa with status := AecpStatus.Success }
    let aa := { aa with targetEntityID := targetEntityID }
    let aa := { aa with controllerEntityID := controllerEntityID }
    aa.addTlvs layer tlvs

/-- The `try` block of `sendAaAecpCommand`. -/
def sendAaAecpCommandBody (layer : FrameLayer)
    (convertErrorToAaCommandStatus : Error → AaCommandStatus) (pi : ProtocolInterface)
    (controllerEntityID targetEntityID : UniqueIdentifier) (targetMacAddress : MacAddress)
    (tlvs : List Tlv) : List Event × Except Failure Unit :=
  match buildAaAecpCommand layer pi controllerEntityID targetEntityID targetMacAddress
      tlvs with
  | .error failure => ([], .error failure)
  | .ok aa =>
    let reply := pi.sendAecpCommand (.aa aa) targetMacAddress
    let events := Event.sendAecpCommand (.aa aa) targetMacAddress ::
      runCompletions (aaCompletion convertErrorToAaCommandStatus) reply.completions
    match reply.result with
    | .error failure => (events, .error failure)
    | .ok error =>
      if error ≠ 0 then
        (events ++ [Event.onAaResult none (convertErrorToAaCommandStatus error)], .ok ())
      else (events, .ok ())

/-- The static method `sendAaAecpCommand`. -/
def sendAaAecpCommand (layer : FrameLayer)
    (convertErrorToAaCommandStatus : Error → AaCommandStatus) (pi : ProtocolInterface)
    (controllerEntityID targetEntityID : UniqueIdentifier) (targetMacAddress : MacAddress)
    (tlvs : List Tlv) : List Event :=
  match sendAaAecpCommandBody layer convertErrorToAaCommandStatus pi controllerEntityID
      targetEntityID targetMacAddress tlvs with
  | (events, .ok _) => events
  | (events, .error .invalidArgument) =>
    events ++ [Event.onAaResult none AaCommandStatus.ProtocolError]
  | (events, .error .other) =>
    events ++ [Event.onAaResult none AaCommandStatus.InternalError]

/-- The first part of the `try` block of `sendMvuAecpCommand`, "Build
MVU-AECPDU frame". -/
def buildMvuAecpCommand (layer : FrameLayer) (pi : ProtocolInterface)
    (controllerEntityID targetEntityID : UniqueIdentifier) (targetMacAddress : MacAddress)
    (commandType : Nat) (payload : List Nat) : Except Failure MvuAecpdu :=
  match layer.createMvuAecpdu with
  | .error failure => .error failure
  | .ok mvu =>
    let mvu := { mvu with srcAddress := pi.getMacAddress }
    let mvu := { mvu with destAddress := targetMacAddress }
    let mvu := { mvu with messageType := AecpMessageType.VendorUniqueCommand }
    let mvu := { mvu with status := AecpStatus.Success }
    let mvu := { mvu with targetEntityID := targetEntityID }
    let mvu := { mvu with controllerEntityID := controllerEntityID }
    let mvu := { mvu with commandType := commandType }
    mvu.setCommandSpecificData layer payload

/-- The `try` block of `sendMvuAecpCommand`. -/
def sendMvuAecpCommandBody (layer : FrameLayer)
    (convertErrorToMvuCommandStatus : Error → MvuCommandStatus) (pi : ProtocolInterface)
    (controllerEntityID targetEntityID : UniqueIdentifier) (targetMacAddress : MacAddress)
    (commandType : Nat) (payload : List Nat) : List Event × Except Failure Unit :=
  match buildMvuAecpCommand layer pi controllerEntityID targetEntityID targetMacAddress
      commandType payload with
  | .error failure => ([], .error failure)
  | .ok mvu =>
    let reply := pi.sendAecpCommand (.mvu mvu) targetMacAddress
    let events := Event.sendAecpCommand (.mvu mvu) targetMacAddress ::
      runCompletions (mvuCompletion convertErrorToMvuCommandStatus) reply.completions
    match reply.result with
    | .error failure => (events, .error failure)
    | .ok error =>
      if error ≠ 0 then
        (events ++ [Event.onMvuResult none (convertErrorToMvuCommandStatus error)], .ok ())
      else (events, .ok ())

/-- The static method `sendMvuAecpCommand`. -/
def sendMvuAecpCommand (layer : FrameLayer)
    (convertErrorToMvuCommandStatus : Error → MvuCommandStatus) (pi : ProtocolInterface)
    (controllerEntityID targetEntityID : UniqueIdentifier) (targetMacAddress : MacAddress)
    (commandType : Nat) (payload : List Nat) : List Event :=
  match sendMvuAecpCommandBody layer convertErrorToMvuCommandStatus pi controllerEntityID
      targetEntityID targetMacAddress commandType payload with
  | (events, .ok _) => events
  | (events, .error .invalidArgument) =>
    events ++ [Event.onMvuResult none MvuCommandStatus.ProtocolError]
  | (events, .error .other) =>
    events ++ [Event.onMvuResult none MvuCommandStatus.InternalError]

/-- The first part of the `try` block of `sendAcmpCommand`, "Build ACMPDU
frame". The destination address is left as created ("it's always the
MultiCast address"). -/
def buildAcmpCommand (layer : FrameLayer) (pi : ProtocolInterface)
    (messageType : Nat) (controllerEntityID talkerEntityID : UniqueIdentifier)
    (talkerStreamIndex : Nat) (listenerEntityID : UniqueIdentifier)
    (listenerStreamIndex : Nat) (connectionIndex : Nat) : Except Failure Acmpdu :=
  match layer.createAcmpdu with
  | .error failure => .error failure
  | .ok acmp =>
    let acmp := { acmp with srcAddress := pi.getMacAddress }
    let acmp := { acmp with streamID := 0 }
    let acmp := { acmp with messageType := messageType }
    let acmp := { acmp with status := AcmpStatus.Success }
    let acmp := { acmp with controllerEntityID := controllerEntityID }
    let acmp := { acmp with talkerEntityID := talkerEntityID }
    let acmp := { acmp with listenerEntityID := listenerEntityID }
    let acmp := { acmp with talkerUniqueID := talkerStreamIndex }
    let acmp := { acmp with listenerUniqueID := listenerStreamIndex }
    let acmp := { acmp with streamDestAddress := 0 }
    let acmp := { acmp with connectionCount := connectionIndex }
    let acmp := { acmp with flags := ConnectionFlags.None }
    let acmp := { acmp with streamVlanID := 0 }
    .ok acmp

/-- The `try` block of `sendAcmpCommand`. -/
def sendAcmpCommandBody (layer : FrameLayer)
    (convertErrorToControlStatus : Error → ControlStatus) (pi : ProtocolInterface)
    (messageType : Nat) (controllerEntityID talkerEntityID : UniqueIdentifier)
    (talkerStreamIndex : Nat) (listenerEntityID : UniqueIdentifier)
    (listenerStreamIndex : Nat) (connectionIndex : Nat) : List Event × Except Failure Unit :=
  match buildAcmpCommand layer pi messageType controllerEntityID talkerEntityID
      talkerStreamIndex listenerEntityID listenerStreamIndex connectionIndex with
  | .error failure => ([], .error failure)
  | .ok acmp =>
    let reply := pi.sendAcmpCommand acmp
    let events := Event.sendAcmpCommand acmp ::
      runCompletions (acmpCompletion convertErrorToControlStatus) reply.completions
    match reply.result with
    | .error failure => (events, .error failure)
    | .ok error =>
      if error ≠ 0 then
        (events ++ [Event.onAcmpResult none (convertErrorToControlStatus error)], .ok ())
      else (events, .ok ())

/-- The static method `sendAcmpCommand`. -/
def sendAcmpCommand (layer : FrameLayer)
    (convertErrorToControlStatus : Error → ControlStatus) (pi : ProtocolInterface)
    (messageType : Nat) (controllerEntityID talkerEntityID : UniqueIdentifier)
    (talkerStreamIndex : Nat) (listenerEntityID : UniqueIdentifier)
    (listenerStreamIndex : Nat) (connectionIndex : Nat) : List Event :=
  match sendAcmpCommandBody layer convertErrorToControlStatus pi messageType
      controllerEntityID talkerEntityID talkerStreamIndex listenerEntityID
      listenerStreamIndex connectionIndex with
  | (events, .ok _) => events
  | (events, .error .invalidArgument) =>
    events ++ [Event.onAcmpResult none ControlStatus.ProtocolError]
  | (events, .error .other) =>
    events ++ [Event.onAcmpResult none ControlStatus.InternalError]

/-! ### Response builders -/

/-- The response that `reflectAecpCommand` builds: the command is copied,
readdressed, its message type becomes
`static_cast<value_type>(command.getMessageType().getValue() + 1u)` and its
status the given one. -/
def buildReflectedResponse (layer : FrameLayer) (pi : ProtocolInterface)
    (command : AnyAecpdu) (status : Nat) : AnyAecpdu :=
  let response := command
  let response := response.setSrcAddress pi.getMacAddress
  let response := response.setDestAddress command.getSrcAddress
  let response :=
    response.setMessageType ((command.getMessageType + 1) % 2 ^ layer.messageTypeBits)
  let response := response.setStatus status
  response

/-- The static method `reflectAecpCommand`: a warning is logged when the
command was not addressed to the transport's own MAC address, and the response
is sent to the source address of the command. The outcome of the send is
dropped ("We don't care about the send errors", `catch (...)`). -/
def reflectAecpCommand (layer : FrameLayer) (pi : ProtocolInterface) (command : AnyAecpdu)
    (status : Nat) : List Event :=
  let warning :=
    if command.getDestAddress ≠ pi.getMacAddress then
      [Event.logWarn command.getTargetEntityID]
    else []
  warning ++
    [Event.sendAecpResponse (buildReflectedResponse layer pi command status)
      command.getSrcAddress]

/-- The frame that `sendAemAecpResponse` builds, "Build AEM-AECPDU frame": a
fresh AEM frame filled from the command and the given status and payload, or
the failure raised while building it. -/
def buildAemAecpResponse (layer : FrameLayer) (pi : ProtocolInterface)
    (commandAem : AemAecpdu) (status : Nat) (payload : List Nat) : Except Failure AemAecpdu :=
  match layer.createAemAecpdu with
  | .error failure => .error failure
  | .ok aem =>
    let aem := { aem with srcAddress := pi.getMacAddress }
    let aem := { aem with destAddress := commandAem.srcAddress }
    let aem := { aem with messageType := AecpMessageType.AemResponse }
    let aem := { aem with status := status }
    let aem := { aem with targetEntityID := commandAem.targetEntityID }
    let aem := { aem with controllerEntityID := commandAem.controllerEntityID }
    let aem := { aem with sequenceID := commandAem.sequenceID }
    let aem := { aem with unsolicited := false }
    let aem := { aem with commandType := commandAem.commandType }
    aem.setCommandSpecificData layer payload

/-- The static method `sendAemAecpResponse`: the frame is built and sent to
the source address of the command; a warning is logged, once the fresh frame
exists, when the command was not addressed to the transport's own MAC address.
The `catch (...)` clause drops any failure, so a frame whose construction
fails is not sent. -/
def sendAemAecpResponse (layer : FrameLayer) (pi : ProtocolInterface)
    (commandAem : AemAecpdu) (status : Nat) (payload : List Nat) : List Event :=
  let warning :=
    match layer.createAemAecpdu with
    | .error _ => []
    | .ok _ =>
      if commandAem.destAddress ≠ pi.getMacAddress then
        [Event.logWarn commandAem.targetEntityID]
      else []
  match buildAemAecpResponse layer pi commandAem status payload with
  | .error _ => warning
  | .ok aem => warning ++ [Event.sendAecpResponse (.aem aem) commandAem.srcAddress]

/-! ### Lock delegation -/

/-- The method `lock`: "We are using the underlying ProtocolInterface's lock". -/
def lock (_pi : ProtocolInterface) (e : LocalEntity) : LocalEntity × List Event :=
  (e, [Event.lock])

/-- The method `unlock`. -/
def unlock (_pi : ProtocolInterface) (e : LocalEntity) : LocalEntity × List Event :=
  (e, [Event.unlock])

/-! ### What reaches the caller

The second component of a `...Body` is how the `try` block ends. What leaves
the function is decided by its `catch` clauses. -/

/-- The type that a `catch` clause names: `catch (std::invalid_argument
const&)`, or `catch (...)`. -/
inductive CatchClause
  | invalidArgument
  | anything
deriving DecidableEq, Repr

/-- Whether a `catch` clause catches a failure. -/
def CatchClause.catches : CatchClause → Failure → Bool
  | .invalidArgument, .invalidArgument => true
  | .invalidArgument, .other => false
  | .anything, _ => true

/-- The statement `try { block } catch (A) { handlerA } catch (B) { handlerB }
...`, each block given by its events and by how it ends. A block that ends
normally is the whole statement. A failure is handed to the first clause that
catches it, and the statement then ends as that handler ends; a failure that
no clause catches leaves the statement. -/
def tryWithCatch (block : List Event × Except Failure Unit)
    (clauses : List (CatchClause × (List Event × Except Failure Unit))) :
    List Event × Except Failure Unit :=
  match block.2 with
  | .ok _ => block
  | .error failure =>
    match clauses.find? (fun clause => clause.1.catches failure) with
    | none => block
    | some clause => (block.1 ++ clause.2.1, clause.2.2)

/-- Modelled from the spec: `utils::invokeProtectedHandler` (declared outside
this file), which invokes the handler, here the event `call`, and is "never
allowed to throw out of the engine": it ends normally. -/
def invokeProtectedHandler (call : Event) : List Event × Except Failure Unit :=
  ([call], .ok ())

/-- The whole body of `sendAemAecpCommand`, the `try` block with its two
`catch` clauses: the events of the call and how the call ends. -/
def sendAemAecpCommandCall (layer : FrameLayer)
    (convertErrorToAemCommandStatus : Error → AemCommandStatus) (pi : ProtocolInterface)
    (controllerEntityID targetEntityID : UniqueIdentifier) (targetMacAddress : MacAddress)
    (commandType : Nat) (payload : List Nat) : List Event × Except Failure Unit :=
  tryWithCatch
    (sendAemAecpCommandBody layer convertErrorToAemCommandStatus pi controllerEntityID
      targetEntityID targetMacAddress commandType payload)
    [(.invalidArgument,
        invokeProtectedHandler (Event.onAemResult none AemCommandStatus.ProtocolError)),
     (.anything,
        invokeProtectedHandler (Event.onAemResult none AemCommandStatus.InternalError))]

/-- The whole body of `sendAaAecpCommand`. -/
def sendAaAecpCommandCall (layer : FrameLayer)
    (convertErrorToAaCommandStatus : Error → AaCommandStatus) (pi : ProtocolInterface)
    (controllerEntityID targetEntityID : UniqueIdentifier) (targetMacAddress : MacAddress)
    (tlvs : List Tlv) : List Event × Except Failure Unit :=
  tryWithCatch
    (sendAaAecpCommandBody layer convertErrorToAaCommandStatus pi controllerEntityID
      targetEntityID targetMacAddress tlvs)
    [(.invalidArgument,
        invokeProtectedHandler (Event.onAaResult none AaCommandStatus.ProtocolError)),
     (.anything,
        invokeProtectedHandler (Event.onAaResult none AaCommandStatus.InternalError))]

/-- The whole body of `sendMvuAecpCommand`. -/
def sendMvuAecpCommandCall (layer : FrameLayer)
    (convertErrorToMvuCommandStatus : Error → MvuCommandStatus) (pi : ProtocolInterface)
    (controllerEntityID targetEntityID : UniqueIdentifier) (targetMacAddress : MacAddress)
    (commandType : Nat) (payload : List Nat) : List Event × Except Failure Unit :=
  tryWithCatch
    (sendMvuAecpCommandBody layer convertErrorToMvuCommandStatus pi controllerEntityID
      targetEntityID targetMacAddress commandType payload)
    [(.invalidArgument,
        invokeProtectedHandler (Event.onMvuResult none MvuCommandStatus.ProtocolError)),
     (.anything,
        invokeProtectedHandler (Event.onMvuResult none MvuCommandStatus.InternalError))]

/-- The whole body of `sendAcmpCommand`. -/
def sendAcmpCommandCall (layer : FrameLayer)
    (convertErrorToControlStatus : Error → ControlStatus) (pi : ProtocolInterface)
    (messageType : Nat) (controllerEntityID talkerEntityID : UniqueIdentifier)
    (talkerStreamIndex : Nat) (listenerEntityID : UniqueIdentifier)
    (listenerStreamIndex : Nat) (connectionIndex : Nat) : List Event × Except Failure Unit :=
  tryWithCatch
    (sendAcmpCommandBody layer convertErrorToControlStatus pi messageType controllerEntityID
      talkerEntityID talkerStreamIndex listenerEntityID listenerStreamIndex connectionIndex)
    [(.invalidArgument,
        invokeProtectedHandler (Event.onAcmpResult none ControlStatus.ProtocolError)),
     (.anything,
        invokeProtectedHandler (Event.onAcmpResult none ControlStatus.InternalError))]

/-- How the `try` block of `reflectAecpCommand` ends: the copy and the setters
raise nothing here, the send may. Its error code is dropped ("We don't care
about the send errors"). -/
def reflectAecpCommandTry (layer : FrameLayer) (pi : ProtocolInterface)
    (command : AnyAecpdu) (status : Nat) : Except Failure Unit :=
  match pi.sendAecpResponse (buildReflectedResponse layer pi command status)
      command.getSrcAddress with
  | .error failure => .error failure
  | .ok _ => .ok ()

/-- The whole body of `reflectAecpCommand`, the `try` block with its clause
`catch (...) { }`: the events of the call and how the call ends. -/
def reflectAecpCommandCall (layer : FrameLayer) (pi : ProtocolInterface)
    (command : AnyAecpdu) (status : Nat) : List Event × Except Failure Unit :=
  tryWithCatch
    (reflectAecpCommand layer pi command status, reflectAecpCommandTry layer pi command status)
    [(.anything, ([], .ok ()))]

/-- How the `try` block of `sendAemAecpResponse` ends: building the frame may
raise, and so may the send. -/
def sendAemAecpResponseTry (layer : FrameLayer) (pi : ProtocolInterface)
    (commandAem : AemAecpdu) (status : Nat) (payload : List Nat) : Except Failure Unit :=
  match buildAemAecpResponse layer pi commandAem status payload with
  | .error failure => .error failure
  | .ok aem =>
    match pi.sendAecpResponse (.aem aem) commandAem.srcAddress with
    | .error failure => .error failure
    | .ok _ => .ok ()

/-- The whole body of `sendAemAecpResponse`, the `try` block with its clause
`catch (...) { }`. -/
def sendAemAecpResponseCall (layer : FrameLayer) (pi : ProtocolInterface)
    (commandAem : AemAecpdu) (status : Nat) (payload : List Nat) :
    List Event × Except Failure Unit :=
  tryWithCatch
    (sendAemAecpResponse layer pi commandAem status payload,
      sendAemAecpResponseTry layer pi commandAem status payload)
    [(.anything, ([], .ok ()))]

end LocalEntityImpl

/-! ## Reading a trace -/

/-- The invocations of the result handler in a trace, in order. -/
def resultCalls (events : List Event) : List Event := events.filter Event.isResult

/-- The calls of a send operation of the transport in a trace, in order. -/
def sendCalls (events : List Event) : List Event := events.filter Event.isSend

/-- The calls on the protocol interface in a trace, in order. -/
def transportCalls (events : List Event) : List Event := events.filter Event.isTransportCall

/-- Whether, in a trace read from a state in which the internal lock `_lock`
is held `depth` times (it is a recursive mutex), some call on the protocol
interface occurs while the lock is held. -/
def lockHeldAcrossTransportCall : Nat → List Event → Bool
  | _, [] => false
  | depth, Event.acquireInternalLock :: rest => lockHeldAcrossTransportCall (depth + 1) rest
  | depth, Event.releaseInternalLock :: rest => lockHeldAcrossTransportCall (depth - 1) rest
  | depth, event :: rest =>
    (decide (0 < depth) && event.isTransportCall) || lockHeldAcrossTransportCall depth rest

/-- Whether a trace acquires the internal lock `_lock` at all. -/
def acquiresInternalLock (events : List Event) : Bool :=
  events.any fun event => event == Event.acquireInternalLock

/-! ## Sample inputs

Concrete values on which the statements below are evaluated. -/

/-- An interface with valid-time 31. -/
def sampleInterface : InterfaceInformation :=
  { macAddress := 0x001B92000001, validTime := 31, gptpGrandmasterID := 0,
    gptpDomainNumber := 0 }

/-- An entity whose interfaces all carry `sampleInterface`. -/
def sampleEntity : LocalEntity :=
  { entityCapabilities := 0, associationID := 0,
    interfacesInformation := fun _ => sampleInterface }

/-- An AECP header with every field zero. -/
def zeroAecpdu : Aecpdu :=
  { srcAddress := 0, destAddress := 0, messageType := 0, status := 0, targetEntityID := 0,
    controllerEntityID := 0, sequenceID := 0 }

/-- A frame layer whose fresh frames are zero, whose payloads hold at most four
bytes, whose Address-Access frames hold at most two TLVs, and whose message
type is an 8-bit value. -/
def sampleLayer : FrameLayer :=
  { createAemAecpdu :=
      .ok { toAecpdu := zeroAecpdu, unsolicited := true, commandType := 0,
            commandSpecificData := [] }
    createAaAecpdu := .ok { toAecpdu := zeroAecpdu, tlvData := [] }
    createMvuAecpdu :=
      .ok { toAecpdu := zeroAecpdu, commandType := 0, commandSpecificData := [] }
    createAcmpdu :=
      .ok { srcAddress := 0, destAddress := 0x91E0F0010000, streamID := 0, messageType := 0,
            status := 0, controllerEntityID := 0, talkerEntityID := 0, listenerEntityID := 0,
            talkerUniqueID := 0, listenerUniqueID := 0, streamDestAddress := 0,
            connectionCount := 0, sequenceID := 0, flags := 0, streamVlanID := 0 }
    aemMaximumPayloadLength := 4
    mvuMaximumPayloadLength := 4
    acceptsTlv := fun frame _ => decide (frame.tlvData.length < 2)
    messageTypeBits := 8 }

/-- A transport with MAC address `0x001B92000001` whose every operation
returns the given error code and which never calls the completion closure
during a send. -/
def sampleTransport (error : Error) : ProtocolInterface :=
  { getMacAddress := 0x001B92000001
    enableEntityAdvertising := fun _ _ => error
    disableEntityAdvertising := fun _ _ => error
    setEntityNeedsAdvertise := fun _ _ _ => error
    unregisterLocalEntity := fun _ => error
    sendAecpCommand := fun _ _ => { completions := [], result := .ok error }
    sendAcmpCommand := fun _ => { completions := [], result := .ok error }
    sendAecpResponse := fun _ _ => .ok error }

/-- A sample translator for AEM: code 10 is "not supported". -/
def sampleAemStatus (error : Error) : AemCommandStatus :=
  if error = 0 then .Success else if error = 10 then .NotSupported else .InternalError

/-- A sample translator for Address-Access. -/
def sampleAaStatus (error : Error) : AaCommandStatus :=
  if error = 0 then .Success else if error = 10 then .NotSupported else .InternalError

/-- A sample translator for Vendor-Unique. -/
def sampleMvuStatus (error : Error) : MvuCommandStatus :=
  if error = 0 then .Success else if error = 10 then .NotSupported else .InternalError

/-- A sample translator for ACMP. -/
def sampleControlStatus (error : Error) : ControlStatus :=
  if error = 0 then .Success else if error = 10 then .NotSupported else .InternalError

/-- A sample TLV. -/
def sampleTlv (address : Nat) : Tlv := { mode := 0, address := address, memoryData := [1, 2] }

/-- An inbound AEM command of type `AemCommand`, sent by `7` to a multicast
address. -/
def sampleCommand : AemAecpdu :=
  { srcAddress := 7, destAddress := 0x91E0F0010000, messageType := 0, status := 0,
    targetEntityID := 2, controllerEntityID := 1, sequenceID := 9, unsolicited := true,
    commandType := 4, commandSpecificData := [5] }

/-- An inbound Address-Access command (message type 2), sent by `7` to the
transport's own MAC address. -/
def sampleAaCommand : AaAecpdu :=
  { srcAddress := 7, destAddress := 0x001B92000001, messageType := 2, status := 0,
    targetEntityID := 2, controllerEntityID := 1, sequenceID := 9,
    tlvData := [sampleTlv 10] }

/-- A transport whose send operations raise a failure that is not
`std::invalid_argument`, without calling the completion closure. -/
def raisingTransport : ProtocolInterface :=
  { sampleTransport 0 with
    sendAecpCommand := fun _ _ => { completions := [], result := .error .other }
    sendAcmpCommand := fun _ => { completions := [], result := .error .other }
    sendAecpResponse := fun _ _ => .error .other }

/-- A frame layer like `sampleLayer` whose `create()` raises a failure that is
not `std::invalid_argument`. -/
def failingLayer : FrameLayer :=
  { sampleLayer with
    createAemAecpdu := .error .other
    createAaAecpdu := .error .other
    createMvuAecpdu := .error .other
    createAcmpdu := .error .other }

/-! ## Lemmas on the frame builders -/

open LocalEntityImpl

theorem addTlvs_append (layer : FrameLayer) (frame : AaAecpdu) (front back : List Tlv) :
    AaAecpdu.addTlvs layer frame (front ++ back) =
      match AaAecpdu.addTlvs layer frame front with
      | .error failure => .error failure
      | .ok next => AaAecpdu.addTlvs layer next back := by
  induction front generalizing frame with
  | nil => simp [AaAecpdu.addTlvs]
  | cons tlv rest ih =>
    simp only [List.cons_append, AaAecpdu.addTlvs]
    cases h : frame.addTlv layer tlv with
    | error failure => simp
    | ok next => simpa using ih next

theorem addTlvs_ok_fields (layer : FrameLayer) (tlvs : List Tlv) (frame result : AaAecpdu)
    (h : AaAecpdu.addTlvs layer frame tlvs = .ok result) :
    result.toAecpdu = frame.toAecpdu ∧ result.tlvData = frame.tlvData ++ tlvs := by
  induction tlvs generalizing frame with
  | nil =>
    simp only [AaAecpdu.addTlvs, Except.ok.injEq] at h
    subst h
    simp
  | cons tlv rest ih =>
    simp only [AaAecpdu.addTlvs] at h
    cases hadd : frame.addTlv layer tlv with
    | error failure => simp [hadd] at h
    | ok next =>
      simp only [hadd] at h
      obtain ⟨h1, h2⟩ := ih next h
      unfold AaAecpdu.addTlv at hadd
      split at hadd
      · simp only [Except.ok.injEq] at hadd
        subst hadd
        simp_all
      · simp at hadd

theorem buildAemAecpCommand_too_long (layer : FrameLayer) (pi : ProtocolInterface)
    (controllerEntityID targetEntityID : UniqueIdentifier) (targetMacAddress : MacAddress)
    (commandType : Nat) (payload : List Nat) (fresh : AemAecpdu)
    (hcreate : layer.createAemAecpdu = .ok fresh)
    (hlong : layer.aemMaximumPayloadLength < payload.length) :
    buildAemAecpCommand layer pi controllerEntityID targetEntityID targetMacAddress
      commandType payload = .error .invalidArgument := by
  simp [buildAemAecpCommand, hcreate, AemAecpdu.setCommandSpecificData, hlong]

theorem buildMvuAecpCommand_too_long (layer : FrameLayer) (pi : ProtocolInterface)
    (controllerEntityID targetEntityID : UniqueIdentifier) (targetMacAddress : MacAddress)
    (commandType : Nat) (payload : List Nat) (fresh : MvuAecpdu)
    (hcreate : layer.createMvuAecpdu = .ok fresh)
    (hlong : layer.mvuMaximumPayloadLength < payload.length) :
    buildMvuAecpCommand layer pi controllerEntityID targetEntityID targetMacAddress
      commandType payload = .error .invalidArgument := by
  simp [buildMvuAecpCommand, hcreate, MvuAecpdu.setCommandSpecificData, hlong]

theorem buildAaAecpCommand_rejected (layer : FrameLayer) (pi : ProtocolInterface)
    (controllerEntityID targetEntityID : UniqueIdentifier) (targetMacAddress : MacAddress)
    (accepted : List Tlv) (tlv : Tlv) (rest : List Tlv) (midFrame : AaAecpdu)
    (hfront : buildAaAecpCommand layer pi controllerEntityID targetEntityID targetMacAddress
      accepted = .ok midFrame)
    (hreject : layer.acceptsTlv midFrame tlv = false) :
    buildAaAecpCommand layer pi controllerEntityID targetEntityID targetMacAddress
      (accepted ++ tlv :: rest) = .error .invalidArgument := by
  unfold buildAaAecpCommand at hfront ⊢
  cases hcreate : layer.createAaAecpdu with
  | error failure => simp [hcreate] at hfront
  | ok fresh =>
    simp only [hcreate] at hfront ⊢
    rw [addTlvs_append, hfront]
    simp [AaAecpdu.addTlvs, AaAecpdu.addTlv, hreject]

theorem sendCalls_append (front back : List Event) :
    sendCalls (front ++ back) = sendCalls front ++ sendCalls back := by
  simp [sendCalls]

theorem sendCalls_runCompletions {Response : Type}
    (closure : Option Response → Error → List Event)
    (hclosure : ∀ response error, sendCalls (closure response error) = [])
    (completions : List (Option Response × Error)) :
    sendCalls (runCompletions closure completions) = [] := by
  induction completions with
  | nil => rfl
  | cons c rest ih =>
    have hstep : runCompletions closure (c :: rest) =
        closure c.1 c.2 ++ runCompletions closure rest := by
      simp [runCompletions]
    rw [hstep, sendCalls_append, hclosure, ih]
    rfl

theorem sendAemAecpCommand_sendCalls (layer : FrameLayer)
    (convert : Error → AemCommandStatus) (pi : ProtocolInterface)
    (controllerEntityID targetEntityID : UniqueIdentifier) (targetMacAddress : MacAddress)
    (commandType : Nat) (payload : List Nat) (frame : AemAecpdu)
    (hbuild : buildAemAecpCommand layer pi controllerEntityID targetEntityID targetMacAddress
      commandType payload = .ok frame) :
    sendCalls (sendAemAecpCommand layer convert pi controllerEntityID targetEntityID
      targetMacAddress commandType payload) =
      [Event.sendAecpCommand (.aem frame) targetMacAddress] := by
  have hrun := sendCalls_runCompletions (aemCompletion convert) (fun _ _ => rfl)
    (pi.sendAecpCommand (.aem frame) targetMacAddress).completions
  have hcons : ∀ tail : List Event, sendCalls tail = [] →
      sendCalls (Event.sendAecpCommand (.aem frame) targetMacAddress :: tail) =
        [Event.sendAecpCommand (.aem frame) targetMacAddress] := by
    intro tail htail
    simpa [sendCalls, List.filter, Event.isSend] using htail
  unfold sendAemAecpCommand sendAemAecpCommandBody
  simp only [hbuild]
  cases hres : (pi.sendAecpCommand (.aem frame) targetMacAddress).result with
  | error failure =>
    cases failure <;>
      · simp only []
        rw [List.cons_append]
        apply hcons
        rw [sendCalls_append, hrun]
        rfl
  | ok error =>
    by_cases herr : error = 0
    · simp only [herr, ne_eq, not_true_eq_false, ↓reduceIte]
      exact hcons _ hrun
    · simp only [ne_eq, herr, not_false_eq_true, ↓reduceIte]
      rw [List.cons_append]
      apply hcons
      rw [sendCalls_append, hrun]
      rfl

theorem sendAaAecpCommand_sendCalls (layer : FrameLayer)
    (convert : Error → AaCommandStatus) (pi : ProtocolInterface)
    (controllerEntityID targetEntityID : UniqueIdentifier) (targetMacAddress : MacAddress)
    (tlvs : List Tlv) (frame : AaAecpdu)
    (hbuild : buildAaAecpCommand layer pi controllerEntityID targetEntityID targetMacAddress
      tlvs = .ok frame) :
    sendCalls (sendAaAecpCommand layer convert pi controllerEntityID targetEntityID
      targetMacAddress tlvs) =
      [Event.sendAecpCommand (.aa frame) targetMacAddress] := by
  have hrun := sendCalls_runCompletions (aaCompletion convert) (fun _ _ => rfl)
    (pi.sendAecpCommand (.aa frame) targetMacAddress).completions
  have hcons : ∀ tail : List Event, sendCalls tail = [] →
      sendCalls (Event.sendAecpCommand (.aa frame) targetMacAddress :: tail) =
        [Event.sendAecpCommand (.aa frame) targetMacAddress] := by
    intro tail htail
    simpa [sendCalls, List.filter, Event.isSend] using htail
  unfold sendAaAecpCommand sendAaAecpCommandBody
  simp only [hbuild]
  cases hres : (pi.sendAecpCommand (.aa frame) targetMacAddress).result with
  | error failure =>
    cases failure <;>
      · simp only []
        rw [List.cons_append]
        apply hcons
        rw [sendCalls_append, hrun]
        rfl
  | ok error =>
    by_cases herr : error = 0
    · simp only [herr, ne_eq, not_true_eq_false, ↓reduceIte]
      exact hcons _ hrun
    · simp only [ne_eq, herr, not_false_eq_true, ↓reduceIte]
      rw [List.cons_append]
      apply hcons
      rw [sendCalls_append, hrun]
      rfl

theorem sendMvuAecpCommand_sendCalls (layer : FrameLayer)
    (convert : Error → MvuCommandStatus) (pi : ProtocolInterface)
    (controllerEntityID targetEntityID : UniqueIdentifier) (targetMacAddress : MacAddress)
    (commandType : Nat) (payload : List Nat) (frame : MvuAecpdu)
    (hbuild : buildMvuAecpCommand layer pi controllerEntityID targetEntityID targetMacAddress
      commandType payload = .ok frame) :
    sendCalls (sendMvuAecpCommand layer convert pi controllerEntityID targetEntityID
      targetMacAddress commandType payload) =
      [Event.sendAecpCommand (.mvu frame) targetMacAddress] := by
  have hrun := sendCalls_runCompletions (mvuCompletion convert) (fun _ _ => rfl)
    (pi.sendAecpCommand (.mvu frame) targetMacAddress).completions
  have hcons : ∀ tail : List Event, sendCalls tail = [] →
      sendCalls (Event.sendAecpCommand (.mvu frame) targetMacAddress :: tail) =
        [Event.sendAecpCommand (.mvu frame) targetMacAddress] := by
    intro tail htail
    simpa [sendCalls, List.filter, Event.isSend] using htail
  unfold sendMvuAecpCommand sendMvuAecpCommandBody
  simp only [hbuild]
  cases hres : (pi.sendAecpCommand (.mvu frame) targetMacAddress).result with
  | error failure =>
    cases failure <;>
      · simp only []
        rw [List.cons_append]
        apply hcons
        rw [sendCalls_append, hrun]
        rfl
  | ok error =>
    by_cases herr : error = 0
    · simp only [herr, ne_eq, not_true_eq_false, ↓reduceIte]
      exact hcons _ hrun
    · simp only [ne_eq, herr, not_false_eq_true, ↓reduceIte]
      rw [List.cons_append]
      apply hcons
      rw [sendCalls_append, hrun]
      rfl

theorem addTlvs_accepted (layer : FrameLayer)
    (haccept : ∀ (frame : AaAecpdu) (tlv : Tlv), layer.acceptsTlv frame tlv = true)
    (tlvs : List Tlv) (frame : AaAecpdu) :
    ∃ result, AaAecpdu.addTlvs layer frame tlvs = .ok result := by
  induction tlvs generalizing frame with
  | nil => exact ⟨frame, rfl⟩
  | cons tlv rest ih =>
    simp only [AaAecpdu.addTlvs, AaAecpdu.addTlv, haccept, ↓reduceIte]
    exact ih _

theorem buildAemAecpCommand_fields (layer : FrameLayer) (pi : ProtocolInterface)
    (controllerEntityID targetEntityID : UniqueIdentifier) (targetMacAddress : MacAddress)
    (commandType : Nat) (payload : List Nat) (frame : AemAecpdu)
    (hbuild : buildAemAecpCommand layer pi controllerEntityID targetEntityID targetMacAddress
      commandType payload = .ok frame) :
    ∃ fresh, layer.createAemAecpdu = .ok fresh ∧
      frame =
        { srcAddress := pi.getMacAddress, destAddress := targetMacAddress,
          messageType := AecpMessageType.AemCommand, status := AecpStatus.Success,
          targetEntityID := targetEntityID, controllerEntityID := controllerEntityID,
          sequenceID := fresh.sequenceID, unsolicited := false, commandType := commandType,
          commandSpecificData := payload } := by
  unfold buildAemAecpCommand at hbuild
  cases hcreate : layer.createAemAecpdu with
  | error failure => simp [hcreate] at hbuild
  | ok fresh =>
    refine ⟨fresh, rfl, ?_⟩
    simp only [hcreate, AemAecpdu.setCommandSpecificData] at hbuild
    split at hbuild
    · simp at hbuild
    · simp only [Except.ok.injEq] at hbuild
      exact hbuild.symm

theorem buildMvuAecpCommand_fields (layer : FrameLayer) (pi : ProtocolInterface)
    (controllerEntityID targetEntityID : UniqueIdentifier) (targetMacAddress : MacAddress)
    (commandType : Nat) (payload : List Nat) (frame : MvuAecpdu)
    (hbuild : buildMvuAecpCommand layer pi controllerEntityID targetEntityID targetMacAddress
      commandType payload = .ok frame) :
    ∃ fresh, layer.createMvuAecpdu = .ok fresh ∧
      frame =
        { srcAddress := pi.getMacAddress, destAddress := targetMacAddress,
          messageType := AecpMessageType.VendorUniqueCommand, status := AecpStatus.Success,
          targetEntityID := targetEntityID, controllerEntityID := controllerEntityID,
          sequenceID := fresh.sequenceID, commandType := commandType,
          commandSpecificData := payload } := by
  unfold buildMvuAecpCommand at hbuild
  cases hcreate : layer.createMvuAecpdu with
  | error failure => simp [hcreate] at hbuild
  | ok fresh =>
    refine ⟨fresh, rfl, ?_⟩
    simp only [hcreate, MvuAecpdu.setCommandSpecificData] at hbuild
    split at hbuild
    · simp at hbuild
    · simp only [Except.ok.injEq] at hbuild
      exact hbuild.symm

theorem buildAaAecpCommand_fields (layer : FrameLayer) (pi : ProtocolInterface)
    (controllerEntityID targetEntityID : UniqueIdentifier) (targetMacAddress : MacAddress)
    (tlvs : List Tlv) (frame : AaAecpdu)
    (hbuild : buildAaAecpCommand layer pi controllerEntityID targetEntityID targetMacAddress
      tlvs = .ok frame) :
    ∃ fresh, layer.createAaAecpdu = .ok fresh ∧
      frame =
        { srcAddress := pi.getMacAddress, destAddress := targetMacAddress,
          messageType := AecpMessageType.AddressAccessCommand, status := AecpStatus.Success,
          targetEntityID := targetEntityID, controllerEntityID := controllerEntityID,
          sequenceID := fresh.sequenceID, tlvData := fresh.tlvData ++ tlvs } := by
  unfold buildAaAecpCommand at hbuild
  cases hcreate : layer.createAaAecpdu with
  | error failure => simp [hcreate] at hbuild
  | ok fresh =>
    refine ⟨fresh, rfl, ?_⟩
    simp only [hcreate] at hbuild
    obtain ⟨hheader, htlvs⟩ := addTlvs_ok_fields layer tlvs _ frame hbuild
    cases frame with
    | mk header tlvData =>
      simp only at hheader htlvs
      subst hheader htlvs
      rfl

theorem sendAemAecpResponse_sendCalls (layer : FrameLayer) (pi : ProtocolInterface)
    (commandAem : AemAecpdu) (status : Nat) (payload : List Nat) (frame : AemAecpdu)
    (hbuild : buildAemAecpResponse layer pi commandAem status payload = .ok frame) :
    sendCalls (sendAemAecpResponse layer pi commandAem status payload) =
      [Event.sendAecpResponse (.aem frame) commandAem.srcAddress] := by
  unfold sendAemAecpResponse
  simp only [hbuild]
  rw [sendCalls_append]
  cases layer.createAemAecpdu with
  | error failure => rfl
  | ok fresh =>
    by_cases hdest : commandAem.destAddress = pi.getMacAddress
    · simp [hdest, sendCalls, Event.isSend]
    · simp [hdest, sendCalls, Event.isSend]

theorem buildAemAecpResponse_messageType (layer : FrameLayer) (pi : ProtocolInterface)
    (commandAem : AemAecpdu) (status : Nat) (payload : List Nat) (frame : AemAecpdu)
    (hbuild : buildAemAecpResponse layer pi commandAem status payload = .ok frame) :
    frame.messageType = AecpMessageType.AemResponse := by
  unfold buildAemAecpResponse at hbuild
  cases hcreate : layer.createAemAecpdu with
  | error failure => simp [hcreate] at hbuild
  | ok fresh =>
    simp only [hcreate, AemAecpdu.setCommandSpecificData] at hbuild
    split at hbuild
    · simp at hbuild
    · simp only [Except.ok.injEq] at hbuild
      subst hbuild
      rfl

theorem tryWithCatch_two_clauses (block : List Event × Except Failure Unit)
    (onInvalidArgument onAnything : Event) :
    tryWithCatch block
      [(.invalidArgument, invokeProtectedHandler onInvalidArgument),
       (.anything, invokeProtectedHandler onAnything)] =
      (match block with
       | (events, .ok _) => events
       | (events, .error .invalidArgument) => events ++ [onInvalidArgument]
       | (events, .error .other) => events ++ [onAnything],
       .ok ()) := by
  obtain ⟨events, outcome⟩ := block
  cases outcome with
  | ok value => rfl
  | error failure => cases failure <;> rfl

theorem tryWithCatch_catch_all (block : List Event × Except Failure Unit) :
    tryWithCatch block [(.anything, ([], .ok ()))] = (block.1, .ok ()) := by
  obtain ⟨events, outcome⟩ := block
  cases outcome with
  | ok value => rfl
  | error failure => simp [tryWithCatch, List.find?, CatchClause.catches]

theorem buildReflectedResponse_messageType (layer : FrameLayer) (pi : ProtocolInterface)
    (command : AnyAecpdu) (status : Nat) :
    (buildReflectedResponse layer pi command status).getMessageType =
      (command.getMessageType + 1) % 2 ^ layer.messageTypeBits := by
  cases command <;> rfl

theorem even_value_successor_fits (bits value : Nat) (hbits : 0 < bits)
    (hvalue : value < 2 ^ bits) (heven : value % 2 = 0) : value + 1 < 2 ^ bits := by
  obtain ⟨k, rfl⟩ : ∃ k, bits = k + 1 := ⟨bits - 1, by omega⟩
  rw [pow_succ] at hvalue ⊢
  omega

/-! ## Submission outcome of the command senders -/

/-- C1: for each of the four command senders, when the frame is built and the
transport's send-and-correlate call returns `error` without calling the
completion closure: if `error` is non-zero the events of the call are the
submission followed by exactly one invocation of the result handler, with a
null response and the family's translation of `error`; if `error` is zero the
events are the submission alone, with no invocation of the handler. Each later
call of the completion closure with `(response, error)` invokes the handler
once, with `response` and the translation of `error`. -/
theorem command_sender_reports_submission_outcome (layer : FrameLayer)
    (pi : ProtocolInterface) :
    (∀ (convert : Error → AemCommandStatus) (controllerEntityID targetEntityID : UniqueIdentifier)
        (targetMacAddress : MacAddress) (commandType : Nat) (payload : List Nat)
        (frame : AemAecpdu) (error : Error),
      buildAemAecpCommand layer pi controllerEntityID targetEntityID targetMacAddress
        commandType payload = .ok frame →
      (pi.sendAecpCommand (.aem frame) targetMacAddress).completions = [] →
      (pi.sendAecpCommand (.aem frame) targetMacAddress).result = .ok error →
      (error ≠ 0 →
        sendAemAecpCommand layer convert pi controllerEntityID targetEntityID
          targetMacAddress commandType payload =
        [Event.sendAecpCommand (.aem frame) targetMacAddress,
         Event.onAemResult none (convert error)]) ∧
      (error = 0 →
        sendAemAecpCommand layer convert pi controllerEntityID targetEntityID
          targetMacAddress commandType payload =
        [Event.sendAecpCommand (.aem frame) targetMacAddress]) ∧
      ∀ (response : Option AnyAecpdu) (later : Error),
        aemCompletion convert response later = [Event.onAemResult response (convert later)]) ∧
    (∀ (convert : Error → AaCommandStatus) (controllerEntityID targetEntityID : UniqueIdentifier)
        (targetMacAddress : MacAddress) (tlvs : List Tlv) (frame : AaAecpdu) (error : Error),
      buildAaAecpCommand layer pi controllerEntityID targetEntityID targetMacAddress
        tlvs = .ok frame →
      (pi.sendAecpCommand (.aa frame) targetMacAddress).completions = [] →
      (pi.sendAecpCommand (.aa frame) targetMacAddress).result = .ok error →
      (error ≠ 0 →
        sendAaAecpCommand layer convert pi controllerEntityID targetEntityID
          targetMacAddress tlvs =
        [Event.sendAecpCommand (.aa frame) targetMacAddress,
         Event.onAaResult none (convert error)]) ∧
      (error = 0 →
        sendAaAecpCommand layer convert pi controllerEntityID targetEntityID
          targetMacAddress tlvs =
        [Event.sendAecpCommand (.aa frame) targetMacAddress]) ∧
      ∀ (response : Option AnyAecpdu) (later : Error),
        aaCompletion convert response later = [Event.onAaResult response (convert later)]) ∧
    (∀ (convert : Error → MvuCommandStatus) (controllerEntityID targetEntityID : UniqueIdentifier)
        (targetMacAddress : MacAddress) (commandType : Nat) (payload : List Nat)
        (frame : MvuAecpdu) (error : Error),
      buildMvuAecpCommand layer pi controllerEntityID targetEntityID targetMacAddress
        commandType payload = .ok frame →
      (pi.sendAecpCommand (.mvu frame) targetMacAddress).completions = [] →
      (pi.sendAecpCommand (.mvu frame) targetMacAddress).result = .ok error →
      (error ≠ 0 →
        sendMvuAecpCommand layer convert pi controllerEntityID targetEntityID
          targetMacAddress commandType payload =
        [Event.sendAecpCommand (.mvu frame) targetMacAddress,
         Event.onMvuResult none (convert error)]) ∧
      (error = 0 →
        sendMvuAecpCommand layer convert pi controllerEntityID targetEntityID
          targetMacAddress commandType payload =
        [Event.sendAecpCommand (.mvu frame) targetMacAddress]) ∧
      ∀ (response : Option AnyAecpdu) (later : Error),
        mvuCompletion convert response later = [Event.onMvuResult response (convert later)]) ∧
    (∀ (convert : Error → ControlStatus) (messageType : Nat)
        (controllerEntityID talkerEntityID : UniqueIdentifier) (talkerStreamIndex : Nat)
        (listenerEntityID : UniqueIdentifier) (listenerStreamIndex connectionIndex : Nat)
        (frame : Acmpdu) (error : Error),
      buildAcmpCommand layer pi messageType controllerEntityID talkerEntityID
        talkerStreamIndex listenerEntityID listenerStreamIndex connectionIndex = .ok frame →
      (pi.sendAcmpCommand frame).completions = [] →
      (pi.sendAcmpCommand frame).result = .ok error →
      (error ≠ 0 →
        sendAcmpCommand layer convert pi messageType controllerEntityID talkerEntityID
          talkerStreamIndex listenerEntityID listenerStreamIndex connectionIndex =
        [Event.sendAcmpCommand frame, Event.onAcmpResult none (convert error)]) ∧
      (error = 0 →
        sendAcmpCommand layer convert pi messageType controllerEntityID talkerEntityID
          talkerStreamIndex listenerEntityID listenerStreamIndex connectionIndex =
        [Event.sendAcmpCommand frame]) ∧
      ∀ (response : Option Acmpdu) (later : Error),
        acmpCompletion convert response later =
          [Event.onAcmpResult response (convert later)]) := by
  refine ⟨?_, ?_, ?_, ?_⟩
  · intro convert controllerEntityID targetEntityID targetMacAddress commandType payload
      frame error hbuild hcalls hreturn
    unfold sendAemAecpCommand sendAemAecpCommandBody
    simp only [hbuild, hcalls, hreturn, runCompletions]
    refine ⟨fun h => by simp [h], fun h => by simp [h], fun _ _ => rfl⟩
  · intro convert controllerEntityID targetEntityID targetMacAddress tlvs
      frame error hbuild hcalls hreturn
    unfold sendAaAecpCommand sendAaAecpCommandBody
    simp only [hbuild, hcalls, hreturn, runCompletions]
    refine ⟨fun h => by simp [h], fun h => by simp [h], fun _ _ => rfl⟩
  · intro convert controllerEntityID targetEntityID targetMacAddress commandType payload
      frame error hbuild hcalls hreturn
    unfold sendMvuAecpCommand sendMvuAecpCommandBody
    simp only [hbuild, hcalls, hreturn, runCompletions]
    refine ⟨fun h => by simp [h], fun h => by simp [h], fun _ _ => rfl⟩
  · intro convert messageType controllerEntityID talkerEntityID talkerStreamIndex
      listenerEntityID listenerStreamIndex connectionIndex frame error hbuild hcalls hreturn
    unfold sendAcmpCommand sendAcmpCommandBody
    simp only [hbuild, hcalls, hreturn, runCompletions]
    refine ⟨fun h => by simp [h], fun h => by simp [h], fun _ _ => rfl⟩

/-- Witness of C1: an AEM command whose submission fails at once with the
"not supported" code 10 yields the submission and one handler call with
`NotSupported` and a null response; the same command on a transport that
reports no error yields the submission alone. -/
theorem command_sender_reports_submission_outcome_witness :
    (10 : Error) ≠ 0 ∧
    sendAemAecpCommand sampleLayer sampleAemStatus (sampleTransport 10) 1 2 3 4 [5, 6] =
      [Event.sendAecpCommand
        (.aem { srcAddress := 0x001B92000001, destAddress := 3, messageType := 0, status := 0,
                targetEntityID := 2, controllerEntityID := 1, sequenceID := 0,
                unsolicited := false, commandType := 4, commandSpecificData := [5, 6] }) 3,
       Event.onAemResult none AemCommandStatus.NotSupported] ∧
    sendAemAecpCommand sampleLayer sampleAemStatus (sampleTransport 0) 1 2 3 4 [5, 6] =
      [Event.sendAecpCommand
        (.aem { srcAddress := 0x001B92000001, destAddress := 3, messageType := 0, status := 0,
                targetEntityID := 2, controllerEntityID := 1, sequenceID := 0,
                unsolicited := false, commandType := 4, commandSpecificData := [5, 6] }) 3] :=
  ⟨by decide,
   ((command_sender_reports_submission_outcome sampleLayer (sampleTransport 10)).1
      sampleAemStatus 1 2 3 4 [5, 6] _ 10 rfl rfl rfl).1 (by decide),
   ((command_sender_reports_submission_outcome sampleLayer (sampleTransport 0)).1
      sampleAemStatus 1 2 3 4 [5, 6] _ 0 rfl rfl rfl).2.1 rfl⟩

/-! ## Rejected payloads -/

/-- C2: when the payload setter of an AEM or Vendor-Unique frame rejects the
payload as longer than the maximum size, and when `addTlv` rejects one of the
TLVs of an Address-Access command, the events of the sender are exactly one
invocation of the result handler, with a null response and the family's
`ProtocolError`; no send operation of the transport is called. -/
theorem rejected_payload_reports_protocol_error (layer : FrameLayer)
    (pi : ProtocolInterface) :
    (∀ (convert : Error → AemCommandStatus) (controllerEntityID targetEntityID : UniqueIdentifier)
        (targetMacAddress : MacAddress) (commandType : Nat) (payload : List Nat)
        (fresh : AemAecpdu),
      layer.createAemAecpdu = .ok fresh →
      layer.aemMaximumPayloadLength < payload.length →
      sendAemAecpCommand layer convert pi controllerEntityID targetEntityID
        targetMacAddress commandType payload =
      [Event.onAemResult none AemCommandStatus.ProtocolError]) ∧
    (∀ (convert : Error → MvuCommandStatus) (controllerEntityID targetEntityID : UniqueIdentifier)
        (targetMacAddress : MacAddress) (commandType : Nat) (payload : List Nat)
        (fresh : MvuAecpdu),
      layer.createMvuAecpdu = .ok fresh →
      layer.mvuMaximumPayloadLength < payload.length →
      sendMvuAecpCommand layer convert pi controllerEntityID targetEntityID
        targetMacAddress commandType payload =
      [Event.onMvuResult none MvuCommandStatus.ProtocolError]) ∧
    (∀ (convert : Error → AaCommandStatus) (controllerEntityID targetEntityID : UniqueIdentifier)
        (targetMacAddress : MacAddress) (accepted : List Tlv) (tlv : Tlv) (rest : List Tlv)
        (midFrame : AaAecpdu),
      buildAaAecpCommand layer pi controllerEntityID targetEntityID targetMacAddress
        accepted = .ok midFrame →
      layer.acceptsTlv midFrame tlv = false →
      sendAaAecpCommand layer convert pi controllerEntityID targetEntityID
        targetMacAddress (accepted ++ tlv :: rest) =
      [Event.onAaResult none AaCommandStatus.ProtocolError]) := by
  refine ⟨?_, ?_, ?_⟩
  · intro convert controllerEntityID targetEntityID targetMacAddress commandType payload
      fresh hcreate hlong
    unfold sendAemAecpCommand sendAemAecpCommandBody
    rw [buildAemAecpCommand_too_long layer pi _ _ _ _ _ fresh hcreate hlong]
    rfl
  · intro convert controllerEntityID targetEntityID targetMacAddress commandType payload
      fresh hcreate hlong
    unfold sendMvuAecpCommand sendMvuAecpCommandBody
    rw [buildMvuAecpCommand_too_long layer pi _ _ _ _ _ fresh hcreate hlong]
    rfl
  · intro convert controllerEntityID targetEntityID targetMacAddress accepted tlv rest
      midFrame hfront hreject
    unfold sendAaAecpCommand sendAaAecpCommandBody
    rw [buildAaAecpCommand_rejected layer pi _ _ _ accepted tlv rest midFrame hfront hreject]
    rfl

/-- Witness of C2: a six-byte AEM payload against a maximum of four bytes, and
an Address-Access command of three TLVs against a frame that holds two. -/
theorem rejected_payload_reports_protocol_error_witness :
    sampleLayer.aemMaximumPayloadLength < [1, 2, 3, 4, 5, 6].length ∧
    sendAemAecpCommand sampleLayer sampleAemStatus (sampleTransport 0) 1 2 3 4
      [1, 2, 3, 4, 5, 6] = [Event.onAemResult none AemCommandStatus.ProtocolError] ∧
    sendAaAecpCommand sampleLayer sampleAaStatus (sampleTransport 0) 1 2 3
      ([sampleTlv 10, sampleTlv 20] ++ sampleTlv 30 :: []) =
      [Event.onAaResult none AaCommandStatus.ProtocolError] :=
  ⟨by decide,
   (rejected_payload_reports_protocol_error sampleLayer (sampleTransport 0)).1
     sampleAemStatus 1 2 3 4 [1, 2, 3, 4, 5, 6] _ rfl (by decide),
   (rejected_payload_reports_protocol_error sampleLayer (sampleTransport 0)).2.2
     sampleAaStatus 1 2 3 [sampleTlv 10, sampleTlv 20] (sampleTlv 30) [] _ rfl rfl⟩

/-! ## Reflection of a command -/

/-- C3: for every inbound AECP command frame and every status, the response
that `reflectAecpCommand` hands to the transport, the only one, has message
type equal to the command's message type + 1, source address equal to the
transport's own MAC address whatever destination address the command carried,
destination address equal to the command's source address, and status equal to
the given status; it is sent to the command's source address. A command frame
is a frame whose message type is a value of the message type's value type (an
unsigned integer type of at least one bit) and is a command type, that is an
even value: "Responses are always the value next after the command". -/
theorem reflect_builds_response (layer : FrameLayer) (pi : ProtocolInterface)
    (command : AnyAecpdu) (status : Nat)
    (hbits : 0 < layer.messageTypeBits)
    (hvalue : command.getMessageType < 2 ^ layer.messageTypeBits)
    (hcommand : command.getMessageType % 2 = 0) :
    sendCalls (reflectAecpCommand layer pi command status) =
      [Event.sendAecpResponse (buildReflectedResponse layer pi command status)
        command.getSrcAddress] ∧
    (buildReflectedResponse layer pi command status).getMessageType =
      command.getMessageType + 1 ∧
    (buildReflectedResponse layer pi command status).getSrcAddress = pi.getMacAddress ∧
    (buildReflectedResponse layer pi command status).getDestAddress = command.getSrcAddress ∧
    (buildReflectedResponse layer pi command status).getStatus = status := by
  refine ⟨?_, ?_, ?_, ?_, ?_⟩
  · unfold reflectAecpCommand sendCalls
    split <;> simp [List.filter, Event.isSend]
  · rw [buildReflectedResponse_messageType]
    exact Nat.mod_eq_of_lt
      (even_value_successor_fits layer.messageTypeBits command.getMessageType hbits hvalue
        hcommand)
  · cases command <;> rfl
  · cases command <;> rfl
  · cases command <;> rfl

/-- Witness of C3: an AEM command (message type 0) addressed to a multicast
address is answered with message type 1 from the transport's own MAC address,
and an Address-Access command (message type 2) with message type 3. -/
theorem reflect_builds_response_witness :
    0 < sampleLayer.messageTypeBits ∧
    (AnyAecpdu.aem sampleCommand).getMessageType < 2 ^ sampleLayer.messageTypeBits ∧
    (AnyAecpdu.aem sampleCommand).getMessageType % 2 = 0 ∧
    sendCalls (reflectAecpCommand sampleLayer (sampleTransport 0) (.aem sampleCommand) 1) =
      [Event.sendAecpResponse
        (.aem { srcAddress := 0x001B92000001, destAddress := 7, messageType := 1, status := 1,
                targetEntityID := 2, controllerEntityID := 1, sequenceID := 9,
                unsolicited := true, commandType := 4, commandSpecificData := [5] }) 7] ∧
    (buildReflectedResponse sampleLayer (sampleTransport 0) (.aa sampleAaCommand)
      1).getMessageType = 3 :=
  ⟨by decide, by decide, by decide,
   (reflect_builds_response sampleLayer (sampleTransport 0) (.aem sampleCommand) 1
     (by decide) (by decide) (by decide)).1,
   (reflect_builds_response sampleLayer (sampleTransport 0) (.aa sampleAaCommand) 1
     (by decide) (by decide) (by decide)).2.1⟩

/-! ## Shutdown -/

/-- C4: for every entity state and every transport, whatever its unregister
call returns, the events of `shutdown` are exactly: acquire the transport
lock, disable advertising on all interfaces, unregister the local entity,
release the transport lock. The entity state is left unchanged, replacing the
outcome of the unregister call changes nothing, and the destructor of the
guard does the same. -/
theorem shutdown_order (pi : ProtocolInterface) (e : LocalEntity) :
    (shutdown pi e).2 =
      [Event.lock, Event.disableEntityAdvertising none, Event.unregisterLocalEntity,
       Event.unlock] ∧
    (shutdown pi e).1 = e ∧
    (∀ outcome : LocalEntity → Error,
      (shutdown { pi with unregisterLocalEntity := outcome } e).2 = (shutdown pi e).2 ∧
      (shutdown { pi with unregisterLocalEntity := outcome } e).1 = (shutdown pi e).1) ∧
    guardDestructor pi e = shutdown pi e :=
  ⟨rfl, rfl, fun _ => ⟨rfl, rfl⟩, rfl⟩

/-! ## Advertising -/

/-- Counterexample to C5 as stated: for the requested duration 512 the stored
valid-time is 0, while half the duration saturated to 8 bits is 255. -/
theorem enable_advertising_512_stores_zero :
    ((enableEntityAdvertising (sampleTransport 0) sampleEntity 512 none).2.1.interfacesInformation
      0).validTime = 0 ∧
    min (512 / 2) 255 = 255 := by
  decide

/-- C5 (amended): for every requested duration `d`, the valid-time stored by
`enableEntityAdvertising` on every interface of the given scope is half the
requested duration truncated to 8 bits, `floor(d / 2) mod 256`. -/
theorem enable_advertising_truncates (pi : ProtocolInterface) (e : LocalEntity) (d : Nat)
    (interfaceIndex : Option AvbInterfaceIndex) (j : AvbInterfaceIndex)
    (hscope : LocalEntity.inScope interfaceIndex j = true) :
    ((enableEntityAdvertising pi e d interfaceIndex).2.1.interfacesInformation j).validTime =
      (d / 2) % 256 := by
  simp [enableEntityAdvertising, LocalEntity.setValidTime, hscope]

/-- Witness of C5 (amended): duration 700 on interface 1 stores 350 mod 256 =
94. -/
theorem enable_advertising_truncates_witness :
    LocalEntity.inScope (some 1) 1 = true ∧
    ((enableEntityAdvertising (sampleTransport 0) sampleEntity 700
      (some 1)).2.1.interfacesInformation 1).validTime = (700 / 2) % 256 :=
  ⟨by decide, enable_advertising_truncates (sampleTransport 0) sampleEntity 700 (some 1) 1
    (by decide)⟩

/-- C6: `enableEntityAdvertising(6)` stores a valid-time of 3 and
`enableEntityAdvertising(1)` stores a valid-time of 0; for every requested
duration `d` with `floor(d / 2) ≤ 255` the stored valid-time is
`floor(d / 2)`; and the operation returns true exactly when the transport's
enable-advertising call, made on the updated entity with the same interface
scope, reports no error. -/
theorem enable_advertising_halves (pi : ProtocolInterface) (e : LocalEntity)
    (interfaceIndex : Option AvbInterfaceIndex) :
    (∀ j, LocalEntity.inScope interfaceIndex j = true →
      ((enableEntityAdvertising pi e 6 interfaceIndex).2.1.interfacesInformation j).validTime
        = 3) ∧
    (∀ j, LocalEntity.inScope interfaceIndex j = true →
      ((enableEntityAdvertising pi e 1 interfaceIndex).2.1.interfacesInformation j).validTime
        = 0) ∧
    (∀ d j, d / 2 ≤ 255 → LocalEntity.inScope interfaceIndex j = true →
      ((enableEntityAdvertising pi e d interfaceIndex).2.1.interfacesInformation j).validTime
        = d / 2) ∧
    (∀ d, (enableEntityAdvertising pi e d interfaceIndex).1 = true ↔
      pi.enableEntityAdvertising (enableEntityAdvertising pi e d interfaceIndex).2.1
        interfaceIndex = 0) := by
  refine ⟨?_, ?_, ?_, ?_⟩
  · intro j hscope
    simp [enableEntityAdvertising, LocalEntity.setValidTime, hscope]
  · intro j hscope
    simp [enableEntityAdvertising, LocalEntity.setValidTime, hscope]
  · intro d j hd hscope
    have hlt : d / 2 < 256 := by omega
    simp [enableEntityAdvertising, LocalEntity.setValidTime, hscope, Nat.mod_eq_of_lt hlt]
  · intro d
    simp [enableEntityAdvertising]

/-- Witness of C6: duration 510 on all interfaces stores 255 on interface 4. -/
theorem enable_advertising_halves_witness :
    510 / 2 ≤ 255 ∧ LocalEntity.inScope none 4 = true ∧
    ((enableEntityAdvertising (sampleTransport 0) sampleEntity 510
      none).2.1.interfacesInformation 4).validTime = 510 / 2 :=
  ⟨by decide, by decide,
   (enable_advertising_halves (sampleTransport 0) sampleEntity none).2.2.1 510 4 (by decide)
     (by decide)⟩

/-! ## Setters -/

/-- C7: each of the five setters stores the given value in its field, leaves
the other fields unchanged, and makes exactly one call on the transport: the
request to mark the corresponding advertise flag, unscoped for capabilities
and association id, scoped to the given interface index for valid-time, gPTP
grandmaster id and gPTP domain number. `setEntityCapabilities(X)` followed by
`setAssociationID(Y)` leaves both fields updated and both flags requested. -/
theorem setters_store_and_mark (pi : ProtocolInterface) (e : LocalEntity) :
    (∀ X : EntityCapabilities,
      (setEntityCapabilities pi e X).1.entityCapabilities = X ∧
      (setEntityCapabilities pi e X).1.associationID = e.associationID ∧
      (setEntityCapabilities pi e X).1.interfacesInformation = e.interfacesInformation ∧
      transportCalls (setEntityCapabilities pi e X).2 =
        [Event.setEntityNeedsAdvertise [AdvertiseFlag.EntityCapabilities] none]) ∧
    (∀ Y : UniqueIdentifier,
      (setAssociationID pi e Y).1.associationID = Y ∧
      (setAssociationID pi e Y).1.entityCapabilities = e.entityCapabilities ∧
      (setAssociationID pi e Y).1.interfacesInformation = e.interfacesInformation ∧
      transportCalls (setAssociationID pi e Y).2 =
        [Event.setEntityNeedsAdvertise [AdvertiseFlag.AssociationID] none]) ∧
    (∀ (validTime : Nat) (interfaceIndex : Option AvbInterfaceIndex),
      (∀ j, LocalEntity.inScope interfaceIndex j = true →
        (setValidTime pi e validTime interfaceIndex).1.interfacesInformation j =
          { e.interfacesInformation j with validTime := validTime }) ∧
      (∀ j, LocalEntity.inScope interfaceIndex j = false →
        (setValidTime pi e validTime interfaceIndex).1.interfacesInformation j =
          e.interfacesInformation j) ∧
      (setValidTime pi e validTime interfaceIndex).1.entityCapabilities =
        e.entityCapabilities ∧
      (setValidTime pi e validTime interfaceIndex).1.associationID = e.associationID ∧
      transportCalls (setValidTime pi e validTime interfaceIndex).2 =
        [Event.setEntityNeedsAdvertise [AdvertiseFlag.ValidTime] interfaceIndex]) ∧
    (∀ (gptpGrandmasterID : UniqueIdentifier) (interfaceIndex : AvbInterfaceIndex),
      (setGptpGrandmasterID pi e gptpGrandmasterID interfaceIndex).1.interfacesInformation
          interfaceIndex =
        { e.interfacesInformation interfaceIndex with
          gptpGrandmasterID := gptpGrandmasterID } ∧
      (∀ j, j ≠ interfaceIndex →
        (setGptpGrandmasterID pi e gptpGrandmasterID interfaceIndex).1.interfacesInformation j =
          e.interfacesInformation j) ∧
      (setGptpGrandmasterID pi e gptpGrandmasterID interfaceIndex).1.entityCapabilities =
        e.entityCapabilities ∧
      (setGptpGrandmasterID pi e gptpGrandmasterID interfaceIndex).1.associationID =
        e.associationID ∧
      transportCalls (setGptpGrandmasterID pi e gptpGrandmasterID interfaceIndex).2 =
        [Event.setEntityNeedsAdvertise [AdvertiseFlag.GptpGrandmasterID]
          (some interfaceIndex)]) ∧
    (∀ (gptpDomainNumber : Nat) (interfaceIndex : AvbInterfaceIndex),
      (setGptpDomainNumber pi e gptpDomainNumber interfaceIndex).1.interfacesInformation
          interfaceIndex =
        { e.interfacesInformation interfaceIndex with gptpDomainNumber := gptpDomainNumber } ∧
      (∀ j, j ≠ interfaceIndex →
        (setGptpDomainNumber pi e gptpDomainNumber interfaceIndex).1.interfacesInformation j =
          e.interfacesInformation j) ∧
      (setGptpDomainNumber pi e gptpDomainNumber interfaceIndex).1.entityCapabilities =
        e.entityCapabilities ∧
      (setGptpDomainNumber pi e gptpDomainNumber interfaceIndex).1.associationID =
        e.associationID ∧
      transportCalls (setGptpDomainNumber pi e gptpDomainNumber interfaceIndex).2 =
        [Event.setEntityNeedsAdvertise [AdvertiseFlag.GptpDomainNumber]
          (some interfaceIndex)]) ∧
    (∀ (X : EntityCapabilities) (Y : UniqueIdentifier),
      (setAssociationID pi (setEntityCapabilities pi e X).1 Y).1.entityCapabilities = X ∧
      (setAssociationID pi (setEntityCapabilities pi e X).1 Y).1.associationID = Y ∧
      transportCalls ((setEntityCapabilities pi e X).2 ++
          (setAssociationID pi (setEntityCapabilities pi e X).1 Y).2) =
        [Event.setEntityNeedsAdvertise [AdvertiseFlag.EntityCapabilities] none,
         Event.setEntityNeedsAdvertise [AdvertiseFlag.AssociationID] none]) := by
  refine ⟨?_, ?_, ?_, ?_, ?_, ?_⟩
  · intro X
    exact ⟨rfl, rfl, rfl, rfl⟩
  · intro Y
    exact ⟨rfl, rfl, rfl, rfl⟩
  · intro validTime interfaceIndex
    refine ⟨?_, ?_, rfl, rfl, rfl⟩
    · intro j hscope
      simp [setValidTime, LocalEntity.setValidTime, hscope]
    · intro j hscope
      simp [setValidTime, LocalEntity.setValidTime, hscope]
  · intro gptpGrandmasterID interfaceIndex
    refine ⟨?_, ?_, rfl, rfl, rfl⟩
    · simp [setGptpGrandmasterID, LocalEntity.setGptpGrandmasterID]
    · intro j hj
      have hne : ¬ interfaceIndex = j := fun h => hj h.symm
      simp [setGptpGrandmasterID, LocalEntity.setGptpGrandmasterID, hne]
  · intro gptpDomainNumber interfaceIndex
    refine ⟨?_, ?_, rfl, rfl, rfl⟩
    · simp [setGptpDomainNumber, LocalEntity.setGptpDomainNumber]
    · intro j hj
      have hne : ¬ interfaceIndex = j := fun h => hj h.symm
      simp [setGptpDomainNumber, LocalEntity.setGptpDomainNumber, hne]
  · intro X Y
    exact ⟨rfl, rfl, rfl⟩

/-- Witness of C7: `setValidTime(20, 1)` on the sample entity writes interface
1 and leaves interface 2 as it was. -/
theorem setters_store_and_mark_witness :
    LocalEntity.inScope (some 1) 1 = true ∧ LocalEntity.inScope (some 1) 2 = false ∧
    (setValidTime (sampleTransport 0) sampleEntity 20 (some 1)).1.interfacesInformation 1 =
      { sampleEntity.interfacesInformation 1 with validTime := 20 } ∧
    (setValidTime (sampleTransport 0) sampleEntity 20 (some 1)).1.interfacesInformation 2 =
      sampleEntity.interfacesInformation 2 :=
  ⟨by decide, by decide,
   ((setters_store_and_mark (sampleTransport 0) sampleEntity).2.2.1 20 (some 1)).1 1
     (by decide),
   ((setters_store_and_mark (sampleTransport 0) sampleEntity).2.2.1 20 (some 1)).2.1 2
     (by decide)⟩

/-- Counterexample to C8 as stated: `enableEntityAdvertising(6)` on the sample
entity changes the valid-time of interface 0 from 31 to 3, and its events are
the enable-advertising call alone: no request to mark the ValidTime flag. -/
theorem enable_advertising_marks_no_flag :
    (sampleEntity.interfacesInformation 0).validTime = 31 ∧
    ((enableEntityAdvertising (sampleTransport 0) sampleEntity 6
      none).2.1.interfacesInformation 0).validTime = 3 ∧
    (enableEntityAdvertising (sampleTransport 0) sampleEntity 6 none).2.2 =
      [Event.enableEntityAdvertising none] ∧
    Event.setEntityNeedsAdvertise [AdvertiseFlag.ValidTime] none ∉
      (enableEntityAdvertising (sampleTransport 0) sampleEntity 6 none).2.2 := by
  decide

/-- C8 (amended): each of the five setters, in the operation that writes its
field, asks the transport to mark that field's advertise flag dirty.
`enableEntityAdvertising` writes the valid-time through the setter of the base
class; its only call on the transport is the request to enable advertising
for the same interface scope, and it makes no request to mark a flag. -/
theorem setters_mark_flag_enable_does_not (pi : ProtocolInterface) (e : LocalEntity) :
    (∀ X : EntityCapabilities,
      Event.setEntityNeedsAdvertise [AdvertiseFlag.EntityCapabilities] none ∈
        (setEntityCapabilities pi e X).2) ∧
    (∀ Y : UniqueIdentifier,
      Event.setEntityNeedsAdvertise [AdvertiseFlag.AssociationID] none ∈
        (setAssociationID pi e Y).2) ∧
    (∀ (validTime : Nat) (interfaceIndex : Option AvbInterfaceIndex),
      Event.setEntityNeedsAdvertise [AdvertiseFlag.ValidTime] interfaceIndex ∈
        (setValidTime pi e validTime interfaceIndex).2) ∧
    (∀ (gptpGrandmasterID : UniqueIdentifier) (interfaceIndex : AvbInterfaceIndex),
      Event.setEntityNeedsAdvertise [AdvertiseFlag.GptpGrandmasterID] (some interfaceIndex) ∈
        (setGptpGrandmasterID pi e gptpGrandmasterID interfaceIndex).2) ∧
    (∀ (gptpDomainNumber : Nat) (interfaceIndex : AvbInterfaceIndex),
      Event.setEntityNeedsAdvertise [AdvertiseFlag.GptpDomainNumber] (some interfaceIndex) ∈
        (setGptpDomainNumber pi e gptpDomainNumber interfaceIndex).2) ∧
    (∀ (d : Nat) (interfaceIndex : Option AvbInterfaceIndex),
      (enableEntityAdvertising pi e d interfaceIndex).2.1 =
        e.setValidTime ((d / 2) % 2 ^ 8) interfaceIndex ∧
      (enableEntityAdvertising pi e d interfaceIndex).2.2 =
        [Event.enableEntityAdvertising interfaceIndex] ∧
      ∀ (flags : AdvertiseFlags) (scope : Option AvbInterfaceIndex),
        Event.setEntityNeedsAdvertise flags scope ∉
          (enableEntityAdvertising pi e d interfaceIndex).2.2) := by
  refine ⟨?_, ?_, ?_, ?_, ?_, ?_⟩
  · intro X
    simp [setEntityCapabilities]
  · intro Y
    simp [setAssociationID]
  · intro validTime interfaceIndex
    simp [setValidTime]
  · intro gptpGrandmasterID interfaceIndex
    simp [setGptpGrandmasterID]
  · intro gptpDomainNumber interfaceIndex
    simp [setGptpDomainNumber]
  · intro d interfaceIndex
    refine ⟨rfl, rfl, ?_⟩
    intro flags scope
    simp [enableEntityAdvertising]

/-! ## Frames of the AECP command senders -/

/-- C9: for every input whose frame is built, an AECP command sender makes
exactly one send call, with that frame and the given target MAC address, and
the frame has source address equal to the transport's own MAC address,
destination address equal to the target MAC address, message type equal to
the sub-protocol's Command value, status Success, the given target and
controller entity identifiers and the given payload (command type and bytes,
or the TLVs of the fresh frame followed by the given TLVs in the given order:
the given TLVs alone when a fresh frame holds none); its sequence identifier is
the one of the fresh frame. The frame is built whenever the fresh frame is
created and the payload is within the maximum size (every TLV accepted). -/
theorem aecp_command_frame_fields (layer : FrameLayer) (pi : ProtocolInterface)
    (controllerEntityID targetEntityID : UniqueIdentifier) (targetMacAddress : MacAddress) :
    (∀ (convert : Error → AemCommandStatus) (commandType : Nat) (payload : List Nat),
      (∀ frame : AemAecpdu,
        buildAemAecpCommand layer pi controllerEntityID targetEntityID targetMacAddress
          commandType payload = .ok frame →
        sendCalls (sendAemAecpCommand layer convert pi controllerEntityID targetEntityID
          targetMacAddress commandType payload) =
          [Event.sendAecpCommand (.aem frame) targetMacAddress] ∧
        frame.srcAddress = pi.getMacAddress ∧
        frame.destAddress = targetMacAddress ∧
        frame.messageType = AecpMessageType.AemCommand ∧
        frame.status = AecpStatus.Success ∧
        frame.targetEntityID = targetEntityID ∧
        frame.controllerEntityID = controllerEntityID ∧
        frame.commandType = commandType ∧
        frame.commandSpecificData = payload ∧
        ∃ fresh, layer.createAemAecpdu = .ok fresh ∧ frame.sequenceID = fresh.sequenceID) ∧
      (∀ fresh : AemAecpdu, layer.createAemAecpdu = .ok fresh →
        payload.length ≤ layer.aemMaximumPayloadLength →
        ∃ frame, buildAemAecpCommand layer pi controllerEntityID targetEntityID
          targetMacAddress commandType payload = .ok frame)) ∧
    (∀ (convert : Error → AaCommandStatus) (tlvs : List Tlv),
      (∀ frame : AaAecpdu,
        buildAaAecpCommand layer pi controllerEntityID targetEntityID targetMacAddress
          tlvs = .ok frame →
        sendCalls (sendAaAecpCommand layer convert pi controllerEntityID targetEntityID
          targetMacAddress tlvs) =
          [Event.sendAecpCommand (.aa frame) targetMacAddress] ∧
        frame.srcAddress = pi.getMacAddress ∧
        frame.destAddress = targetMacAddress ∧
        frame.messageType = AecpMessageType.AddressAccessCommand ∧
        frame.status = AecpStatus.Success ∧
        frame.targetEntityID = targetEntityID ∧
        frame.controllerEntityID = controllerEntityID ∧
        ∃ fresh, layer.createAaAecpdu = .ok fresh ∧
          frame.tlvData = fresh.tlvData ++ tlvs ∧
          (fresh.tlvData = [] → frame.tlvData = tlvs) ∧
          frame.sequenceID = fresh.sequenceID) ∧
      (∀ fresh : AaAecpdu, layer.createAaAecpdu = .ok fresh →
        (∀ (frame : AaAecpdu) (tlv : Tlv), layer.acceptsTlv frame tlv = true) →
        ∃ frame, buildAaAecpCommand layer pi controllerEntityID targetEntityID
          targetMacAddress tlvs = .ok frame)) ∧
    (∀ (convert : Error → MvuCommandStatus) (commandType : Nat) (payload : List Nat),
      (∀ frame : MvuAecpdu,
        buildMvuAecpCommand layer pi controllerEntityID targetEntityID targetMacAddress
          commandType payload = .ok frame →
        sendCalls (sendMvuAecpCommand layer convert pi controllerEntityID targetEntityID
          targetMacAddress commandType payload) =
          [Event.sendAecpCommand (.mvu frame) targetMacAddress] ∧
        frame.srcAddress = pi.getMacAddress ∧
        frame.destAddress = targetMacAddress ∧
        frame.messageType = AecpMessageType.VendorUniqueCommand ∧
        frame.status = AecpStatus.Success ∧
        frame.targetEntityID = targetEntityID ∧
        frame.controllerEntityID = controllerEntityID ∧
        frame.commandType = commandType ∧
        frame.commandSpecificData = payload ∧
        ∃ fresh, layer.createMvuAecpdu = .ok fresh ∧ frame.sequenceID = fresh.sequenceID) ∧
      (∀ fresh : MvuAecpdu, layer.createMvuAecpdu = .ok fresh →
        payload.length ≤ layer.mvuMaximumPayloadLength →
        ∃ frame, buildMvuAecpCommand layer pi controllerEntityID targetEntityID
          targetMacAddress commandType payload = .ok frame)) := by
  refine ⟨?_, ?_, ?_⟩
  · intro convert commandType payload
    constructor
    · intro frame hbuild
      obtain ⟨fresh, hcreate, hframe⟩ := buildAemAecpCommand_fields layer pi
        controllerEntityID targetEntityID targetMacAddress commandType payload frame hbuild
      refine ⟨sendAemAecpCommand_sendCalls layer convert pi _ _ _ _ _ frame hbuild, ?_⟩
      subst hframe
      exact ⟨rfl, rfl, rfl, rfl, rfl, rfl, rfl, rfl, fresh, hcreate, rfl⟩
    · intro fresh hcreate hlen
      have hnot : ¬ layer.aemMaximumPayloadLength < payload.length := by omega
      simp [buildAemAecpCommand, hcreate, AemAecpdu.setCommandSpecificData, hnot]
  · intro convert tlvs
    constructor
    · intro frame hbuild
      obtain ⟨fresh, hcreate, hframe⟩ := buildAaAecpCommand_fields layer pi
        controllerEntityID targetEntityID targetMacAddress tlvs frame hbuild
      refine ⟨sendAaAecpCommand_sendCalls layer convert pi _ _ _ _ frame hbuild, ?_⟩
      subst hframe
      refine ⟨rfl, rfl, rfl, rfl, rfl, rfl, fresh, hcreate, rfl, ?_, rfl⟩
      intro hempty
      simp [hempty]
    · intro fresh hcreate haccept
      simp only [buildAaAecpCommand, hcreate]
      exact addTlvs_accepted layer haccept tlvs _
  · intro convert commandType payload
    constructor
    · intro frame hbuild
      obtain ⟨fresh, hcreate, hframe⟩ := buildMvuAecpCommand_fields layer pi
        controllerEntityID targetEntityID targetMacAddress commandType payload frame hbuild
      refine ⟨sendMvuAecpCommand_sendCalls layer convert pi _ _ _ _ _ frame hbuild, ?_⟩
      subst hframe
      exact ⟨rfl, rfl, rfl, rfl, rfl, rfl, rfl, rfl, fresh, hcreate, rfl⟩
    · intro fresh hcreate hlen
      have hnot : ¬ layer.mvuMaximumPayloadLength < payload.length := by omega
      simp [buildMvuAecpCommand, hcreate, MvuAecpdu.setCommandSpecificData, hnot]

/-- Witness of C9: an Address-Access command with two TLVs on the sample
layer: the frame is built and submitted with the two TLVs in order. -/
theorem aecp_command_frame_fields_witness :
    buildAaAecpCommand sampleLayer (sampleTransport 0) 1 2 3 [sampleTlv 10, sampleTlv 20] =
      .ok { srcAddress := 0x001B92000001, destAddress := 3, messageType := 2, status := 0,
            targetEntityID := 2, controllerEntityID := 1, sequenceID := 0,
            tlvData := [sampleTlv 10, sampleTlv 20] } ∧
    sendCalls (sendAaAecpCommand sampleLayer sampleAaStatus (sampleTransport 0) 1 2 3
      [sampleTlv 10, sampleTlv 20]) =
      [Event.sendAecpCommand
        (.aa { srcAddress := 0x001B92000001, destAddress := 3, messageType := 2, status := 0,
               targetEntityID := 2, controllerEntityID := 1, sequenceID := 0,
               tlvData := [sampleTlv 10, sampleTlv 20] }) 3] :=
  ⟨rfl,
   (((aecp_command_frame_fields sampleLayer (sampleTransport 0) 1 2 3).2.1 sampleAaStatus
      [sampleTlv 10, sampleTlv 20]).1 _ rfl).1⟩

/-! ## Correlation fields of the responses -/

/-- C10: the response sent by either response builder carries the sequence
identifier, target entity identifier and controller entity identifier of the
command. `reflectAecpCommand` sends one response, which differs from the
command in no field other than source address, destination address, message
type and status: putting the command's values back in these four fields gives
the command. Every frame that `sendAemAecpResponse` builds is sent, once, to
the command's source address, and has the command's sequence identifier,
target, controller and AEM command type, the unsolicited bit cleared, and the
given payload; when building fails nothing is sent; the frame is built
whenever the fresh frame is created and the payload is within the maximum
size. -/
theorem response_carries_correlation_fields (layer : FrameLayer) (pi : ProtocolInterface)
    (status : Nat) :
    (∀ command : AnyAecpdu,
      sendCalls (reflectAecpCommand layer pi command status) =
        [Event.sendAecpResponse (buildReflectedResponse layer pi command status)
          command.getSrcAddress] ∧
      (buildReflectedResponse layer pi command status).getSequenceID =
        command.getSequenceID ∧
      (buildReflectedResponse layer pi command status).getTargetEntityID =
        command.getTargetEntityID ∧
      (buildReflectedResponse layer pi command status).getControllerEntityID =
        command.getControllerEntityID ∧
      (buildReflectedResponse layer pi command status).modifyHeader
        (fun h => { h with srcAddress := command.getSrcAddress,
                           destAddress := command.getDestAddress,
                           messageType := command.getMessageType,
                           status := command.getStatus }) = command) ∧
    (∀ (commandAem : AemAecpdu) (payload : List Nat),
      (∀ frame : AemAecpdu,
        buildAemAecpResponse layer pi commandAem status payload = .ok frame →
        sendCalls (sendAemAecpResponse layer pi commandAem status payload) =
          [Event.sendAecpResponse (.aem frame) commandAem.srcAddress] ∧
        frame.sequenceID = commandAem.sequenceID ∧
        frame.targetEntityID = commandAem.targetEntityID ∧
        frame.controllerEntityID = commandAem.controllerEntityID ∧
        frame.commandType = commandAem.commandType ∧
        frame.unsolicited = false ∧
        frame.commandSpecificData = payload) ∧
      (∀ failure : Failure,
        buildAemAecpResponse layer pi commandAem status payload = .error failure →
        sendCalls (sendAemAecpResponse layer pi commandAem status payload) = []) ∧
      (∀ fresh : AemAecpdu, layer.createAemAecpdu = .ok fresh →
        payload.length ≤ layer.aemMaximumPayloadLength →
        ∃ frame, buildAemAecpResponse layer pi commandAem status payload = .ok frame)) := by
  constructor
  · intro command
    refine ⟨?_, ?_, ?_, ?_, ?_⟩
    · unfold reflectAecpCommand sendCalls
      split <;> simp [List.filter, Event.isSend]
    · cases command <;> rfl
    · cases command <;> rfl
    · cases command <;> rfl
    · cases command <;> rfl
  · intro commandAem payload
    have hwarning : ∀ warning : List Event,
        (warning = [] ∨ warning = [Event.logWarn commandAem.targetEntityID]) →
        sendCalls warning = [] := by
      intro warning h
      rcases h with h | h <;> subst h <;> rfl
    have hwarn : sendCalls
        (match layer.createAemAecpdu with
         | .error _ => []
         | .ok _ =>
           if commandAem.destAddress ≠ pi.getMacAddress then
             [Event.logWarn commandAem.targetEntityID]
           else []) = [] := by
      apply hwarning
      cases layer.createAemAecpdu with
      | error failure => exact Or.inl rfl
      | ok fresh =>
        by_cases hdest : commandAem.destAddress = pi.getMacAddress
        · left
          simp [hdest]
        · right
          simp [hdest]
    refine ⟨?_, ?_, ?_⟩
    · intro frame hbuild
      constructor
      · unfold sendAemAecpResponse
        simp only [hbuild]
        rw [sendCalls_append, hwarn]
        rfl
      · unfold buildAemAecpResponse at hbuild
        cases hcreate : layer.createAemAecpdu with
        | error failure => simp [hcreate] at hbuild
        | ok fresh =>
          simp only [hcreate, AemAecpdu.setCommandSpecificData] at hbuild
          split at hbuild
          · simp at hbuild
          · simp only [Except.ok.injEq] at hbuild
            subst hbuild
            exact ⟨rfl, rfl, rfl, rfl, rfl, rfl⟩
    · intro failure hbuild
      unfold sendAemAecpResponse
      simp only [hbuild]
      exact hwarn
    · intro fresh hcreate hlen
      have hnot : ¬ layer.aemMaximumPayloadLength < payload.length := by omega
      simp [buildAemAecpResponse, hcreate, AemAecpdu.setCommandSpecificData, hnot]

/-- Witness of C10: the AEM response to the sample command (sequence
identifier 9, target 2, controller 1, command type 4) with status 1 and payload
`[8]`. -/
theorem response_carries_correlation_fields_witness :
    buildAemAecpResponse sampleLayer (sampleTransport 0) sampleCommand 1 [8] =
      .ok { srcAddress := 0x001B92000001, destAddress := 7, messageType := 1, status := 1,
            targetEntityID := 2, controllerEntityID := 1, sequenceID := 9,
            unsolicited := false, commandType := 4, commandSpecificData := [8] } ∧
    sendCalls (sendAemAecpResponse sampleLayer (sampleTransport 0) sampleCommand 1 [8]) =
      [Event.sendAecpResponse
        (.aem { srcAddress := 0x001B92000001, destAddress := 7, messageType := 1, status := 1,
                targetEntityID := 2, controllerEntityID := 1, sequenceID := 9,
                unsolicited := false, commandType := 4, commandSpecificData := [8] }) 7] :=
  ⟨rfl,
   (((response_carries_correlation_fields sampleLayer (sampleTransport 0) 1).2 sampleCommand
      [8]).1 _ rfl).1⟩

/-! ## Message type of the AEM response -/

/-- C11: for every inbound AEM command frame (an AEM frame whose message type
is `AemCommand`) passed to `sendAemAecpResponse`, every response that is built
is sent, once, and its message type is the command frame's message type + 1;
the response is built whenever the fresh frame is created and the payload is
within the maximum size. -/
theorem aem_response_message_type (layer : FrameLayer) (pi : ProtocolInterface)
    (commandAem : AemAecpdu) (status : Nat) (payload : List Nat)
    (hcommand : commandAem.messageType = AecpMessageType.AemCommand) :
    (∀ frame : AemAecpdu,
      buildAemAecpResponse layer pi commandAem status payload = .ok frame →
      sendCalls (sendAemAecpResponse layer pi commandAem status payload) =
        [Event.sendAecpResponse (.aem frame) commandAem.srcAddress] ∧
      frame.messageType = commandAem.messageType + 1) ∧
    (∀ fresh : AemAecpdu, layer.createAemAecpdu = .ok fresh →
      payload.length ≤ layer.aemMaximumPayloadLength →
      ∃ frame, buildAemAecpResponse layer pi commandAem status payload = .ok frame) := by
  constructor
  · intro frame hbuild
    refine ⟨sendAemAecpResponse_sendCalls layer pi commandAem status payload frame hbuild, ?_⟩
    rw [buildAemAecpResponse_messageType layer pi commandAem status payload frame hbuild,
      hcommand]
    rfl
  · intro fresh hcreate hlen
    have hnot : ¬ layer.aemMaximumPayloadLength < payload.length := by omega
    simp [buildAemAecpResponse, hcreate, AemAecpdu.setCommandSpecificData, hnot]

/-- Witness of C11: the response to the sample command, whose message type is
`AemCommand` (0), is sent with message type 1. -/
theorem aem_response_message_type_witness :
    sampleCommand.messageType = AecpMessageType.AemCommand ∧
    buildAemAecpResponse sampleLayer (sampleTransport 0) sampleCommand 1 [8] =
      .ok { srcAddress := 0x001B92000001, destAddress := 7, messageType := 1, status := 1,
            targetEntityID := 2, controllerEntityID := 1, sequenceID := 9,
            unsolicited := false, commandType := 4, commandSpecificData := [8] } ∧
    sendCalls (sendAemAecpResponse sampleLayer (sampleTransport 0) sampleCommand 1 [8]) =
      [Event.sendAecpResponse
        (.aem { srcAddress := 0x001B92000001, destAddress := 7, messageType := 1, status := 1,
                targetEntityID := 2, controllerEntityID := 1, sequenceID := 9,
                unsolicited := false, commandType := 4, commandSpecificData := [8] }) 7] ∧
    (1 : Nat) = sampleCommand.messageType + 1 :=
  ⟨rfl, rfl,
   ((aem_response_message_type sampleLayer (sampleTransport 0) sampleCommand 1 [8] rfl).1 _
     rfl).1,
   ((aem_response_message_type sampleLayer (sampleTransport 0) sampleCommand 1 [8] rfl).1 _
     rfl).2⟩

/-! ## Unexpected failures -/

/-- C12: for each of the four command senders, when building the frame raises
a failure other than `invalid_argument`, or when the transport's send raises
one without having called the completion closure, the result handler is
invoked exactly once, with a null response and the family's `InternalError`;
whatever the transport did before raising, that invocation by the
`catch (...)` clause follows its calls on the closure. The call of a command
sender always ends normally, with the events of the sender, and so does the
call of a response builder (`reflectAecpCommand`, `sendAemAecpResponse`): no
failure of the `try` block reaches the caller. -/
theorem unexpected_failure_reports_internal_error (layer : FrameLayer)
    (pi : ProtocolInterface) :
    (∀ (convert : Error → AemCommandStatus) (controllerEntityID targetEntityID : UniqueIdentifier)
        (targetMacAddress : MacAddress) (commandType : Nat) (payload : List Nat),
      (buildAemAecpCommand layer pi controllerEntityID targetEntityID targetMacAddress commandType payload = .error .other →
        sendAemAecpCommand layer convert pi controllerEntityID targetEntityID targetMacAddress commandType payload =
          [Event.onAemResult none AemCommandStatus.InternalError]) ∧
      (∀ frame : AemAecpdu,
        buildAemAecpCommand layer pi controllerEntityID targetEntityID targetMacAddress commandType payload = .ok frame →
        (pi.sendAecpCommand (.aem frame) targetMacAddress).result = .error .other →
        sendAemAecpCommand layer convert pi controllerEntityID targetEntityID targetMacAddress commandType payload =
          Event.sendAecpCommand (.aem frame) targetMacAddress ::
            (runCompletions (aemCompletion convert) (pi.sendAecpCommand (.aem frame) targetMacAddress).completions ++
              [Event.onAemResult none AemCommandStatus.InternalError]) ∧
        ((pi.sendAecpCommand (.aem frame) targetMacAddress).completions = [] →
          sendAemAecpCommand layer convert pi controllerEntityID targetEntityID targetMacAddress commandType payload =
            [Event.sendAecpCommand (.aem frame) targetMacAddress,
             Event.onAemResult none AemCommandStatus.InternalError])) ∧
      (sendAemAecpCommandCall layer convert pi controllerEntityID targetEntityID targetMacAddress commandType payload).2 = .ok () ∧
      (sendAemAecpCommandCall layer convert pi controllerEntityID targetEntityID targetMacAddress commandType payload).1 =
        sendAemAecpCommand layer convert pi controllerEntityID targetEntityID targetMacAddress commandType payload) ∧
    (∀ (convert : Error → AaCommandStatus) (controllerEntityID targetEntityID : UniqueIdentifier)
        (targetMacAddress : MacAddress) (tlvs : List Tlv),
      (buildAaAecpCommand layer pi controllerEntityID targetEntityID targetMacAddress tlvs = .error .other →
        sendAaAecpCommand layer convert pi controllerEntityID targetEntityID targetMacAddress tlvs =
          [Event.onAaResult none AaCommandStatus.InternalError]) ∧
      (∀ frame : AaAecpdu,
        buildAaAecpCommand layer pi controllerEntityID targetEntityID targetMacAddress tlvs = .ok frame →
        (pi.sendAecpCommand (.aa frame) targetMacAddress).result = .error .other →
        sendAaAecpCommand layer convert pi controllerEntityID targetEntityID targetMacAddress tlvs =
          Event.sendAecpCommand (.aa frame) targetMacAddress ::
            (runCompletions (aaCompletion convert) (pi.sendAecpCommand (.aa frame) targetMacAddress).completions ++
              [Event.onAaResult none AaCommandStatus.InternalError]) ∧
        ((pi.sendAecpCommand (.aa frame) targetMacAddress).completions = [] →
          sendAaAecpCommand layer convert pi controllerEntityID targetEntityID targetMacAddress tlvs =
            [Event.sendAecpCommand (.aa frame) targetMacAddress,
             Event.onAaResult none AaCommandStatus.InternalError])) ∧
      (sendAaAecpCommandCall layer convert pi controllerEntityID targetEntityID targetMacAddress tlvs).2 = .ok () ∧
      (sendAaAecpCommandCall layer convert pi controllerEntityID targetEntityID targetMacAddress tlvs).1 =
        sendAaAecpCommand layer convert pi controllerEntityID targetEntityID targetMacAddress tlvs) ∧
    (∀ (convert : Error → MvuCommandStatus) (controllerEntityID targetEntityID : UniqueIdentifier)
        (targetMacAddress : MacAddress) (commandType : Nat) (payload : List Nat),
      (buildMvuAecpCommand layer pi controllerEntityID targetEntityID targetMacAddress commandType payload = .error .other →
        sendMvuAecpCommand layer convert pi controllerEntityID targetEntityID targetMacAddress commandType payload =
          [Event.onMvuResult none MvuCommandStatus.InternalError]) ∧
      (∀ frame : MvuAecpdu,
        buildMvuAecpCommand layer pi controllerEntityID targetEntityID targetMacAddress commandType payload = .ok frame →
        (pi.sendAecpCommand (.mvu frame) targetMacAddress).result = .error .other →
        sendMvuAecpCommand layer convert pi controllerEntityID targetEntityID targetMacAddress commandType payload =
          Event.sendAecpCommand (.mvu frame) targetMacAddress ::
            (runCompletions (mvuCompletion convert) (pi.sendAecpCommand (.mvu frame) targetMacAddress).completions ++
              [Event.onMvuResult none MvuCommandStatus.InternalError]) ∧
        ((pi.sendAecpCommand (.mvu frame) targetMacAddress).completions = [] →
          sendMvuAecpCommand layer convert pi controllerEntityID targetEntityID targetMacAddress commandType payload =
            [Event.sendAecpCommand (.mvu frame) targetMacAddress,
             Event.onMvuResult none MvuCommandStatus.InternalError])) ∧
      (sendMvuAecpCommandCall layer convert pi controllerEntityID targetEntityID targetMacAddress commandType payload).2 = .ok () ∧
      (sendMvuAecpCommandCall layer convert pi controllerEntityID targetEntityID targetMacAddress commandType payload).1 =
        sendMvuAecpCommand layer convert pi controllerEntityID targetEntityID targetMacAddress commandType payload) ∧
    (∀ (convert : Error → ControlStatus) (messageType : Nat)
        (controllerEntityID talkerEntityID : UniqueIdentifier) (talkerStreamIndex : Nat)
        (listenerEntityID : UniqueIdentifier) (listenerStreamIndex connectionIndex : Nat),
      (buildAcmpCommand layer pi messageType controllerEntityID talkerEntityID
          talkerStreamIndex listenerEntityID listenerStreamIndex connectionIndex = .error .other →
        sendAcmpCommand layer convert pi messageType controllerEntityID talkerEntityID
          talkerStreamIndex listenerEntityID listenerStreamIndex connectionIndex =
          [Event.onAcmpResult none ControlStatus.InternalError]) ∧
      (∀ frame : Acmpdu,
        buildAcmpCommand layer pi messageType controllerEntityID talkerEntityID
          talkerStreamIndex listenerEntityID listenerStreamIndex connectionIndex = .ok frame →
        (pi.sendAcmpCommand frame).result = .error .other →
        sendAcmpCommand layer convert pi messageType controllerEntityID talkerEntityID
          talkerStreamIndex listenerEntityID listenerStreamIndex connectionIndex =
          Event.sendAcmpCommand frame ::
            (runCompletions (acmpCompletion convert) (pi.sendAcmpCommand frame).completions ++
              [Event.onAcmpResult none ControlStatus.InternalError]) ∧
        ((pi.sendAcmpCommand frame).completions = [] →
          sendAcmpCommand layer convert pi messageType controllerEntityID talkerEntityID
          talkerStreamIndex listenerEntityID listenerStreamIndex connectionIndex =
            [Event.sendAcmpCommand frame,
             Event.onAcmpResult none ControlStatus.InternalError])) ∧
      (sendAcmpCommandCall layer convert pi messageType controllerEntityID talkerEntityID
          talkerStreamIndex listenerEntityID listenerStreamIndex connectionIndex).2 = .ok () ∧
      (sendAcmpCommandCall layer convert pi messageType controllerEntityID talkerEntityID
          talkerStreamIndex listenerEntityID listenerStreamIndex connectionIndex).1 =
        sendAcmpCommand layer convert pi messageType controllerEntityID talkerEntityID
          talkerStreamIndex listenerEntityID listenerStreamIndex connectionIndex) ∧
    (∀ (command : AnyAecpdu) (status : Nat),
      (reflectAecpCommandCall layer pi command status).2 = .ok () ∧
      (reflectAecpCommandCall layer pi command status).1 =
        reflectAecpCommand layer pi command status) ∧
    (∀ (commandAem : AemAecpdu) (status : Nat) (payload : List Nat),
      (sendAemAecpResponseCall layer pi commandAem status payload).2 = .ok () ∧
      (sendAemAecpResponseCall layer pi commandAem status payload).1 =
        sendAemAecpResponse layer pi commandAem status payload) := by
  refine ⟨?_, ?_, ?_, ?_, ?_, ?_⟩
  · intro convert controllerEntityID targetEntityID targetMacAddress commandType payload
    refine ⟨?_, ?_, ?_, ?_⟩
    · intro hbuild
      unfold sendAemAecpCommand sendAemAecpCommandBody
      simp only [hbuild]
      rfl
    · intro frame hbuild hraise
      have htrace : sendAemAecpCommand layer convert pi controllerEntityID targetEntityID targetMacAddress commandType payload =
          Event.sendAecpCommand (.aem frame) targetMacAddress ::
            (runCompletions (aemCompletion convert) (pi.sendAecpCommand (.aem frame) targetMacAddress).completions ++
              [Event.onAemResult none AemCommandStatus.InternalError]) := by
        unfold sendAemAecpCommand sendAemAecpCommandBody
        simp only [hbuild, hraise]
        rfl
      refine ⟨htrace, ?_⟩
      intro hcalls
      rw [htrace, hcalls]
      rfl
    · unfold sendAemAecpCommandCall
      rw [tryWithCatch_two_clauses]
    · unfold sendAemAecpCommandCall sendAemAecpCommand
      rw [tryWithCatch_two_clauses]
  · intro convert controllerEntityID targetEntityID targetMacAddress tlvs
    refine ⟨?_, ?_, ?_, ?_⟩
    · intro hbuild
      unfold sendAaAecpCommand sendAaAecpCommandBody
      simp only [hbuild]
      rfl
    · intro frame hbuild hraise
      have htrace : sendAaAecpCommand layer convert pi controllerEntityID targetEntityID targetMacAddress tlvs =
          Event.sendAecpCommand (.aa frame) targetMacAddress ::
            (runCompletions (aaCompletion convert) (pi.sendAecpCommand (.aa frame) targetMacAddress).completions ++
              [Event.onAaResult none AaCommandStatus.InternalError]) := by
        unfold sendAaAecpCommand sendAaAecpCommandBody
        simp only [hbuild, hraise]
        rfl
      refine ⟨htrace, ?_⟩
      intro hcalls
      rw [htrace, hcalls]
      rfl
    · unfold sendAaAecpCommandCall
      rw [tryWithCatch_two_clauses]
    · unfold sendAaAecpCommandCall sendAaAecpCommand
      rw [tryWithCatch_two_clauses]
  · intro convert controllerEntityID targetEntityID targetMacAddress commandType payload
    refine ⟨?_, ?_, ?_, ?_⟩
    · intro hbuild
      unfold sendMvuAecpCommand sendMvuAecpCommandBody
      simp only [hbuild]
      rfl
    · intro frame hbuild hraise
      have htrace : sendMvuAecpCommand layer convert pi controllerEntityID targetEntityID targetMacAddress commandType payload =
          Event.sendAecpCommand (.mvu frame) targetMacAddress ::
            (runCompletions (mvuCompletion convert) (pi.sendAecpCommand (.mvu frame) targetMacAddress).completions ++
              [Event.onMvuResult none MvuCommandStatus.InternalError]) := by
        unfold sendMvuAecpCommand sendMvuAecpCommandBody
        simp only [hbuild, hraise]
        rfl
      refine ⟨htrace, ?_⟩
      intro hcalls
      rw [htrace, hcalls]
      rfl
    · unfold sendMvuAecpCommandCall
      rw [tryWithCatch_two_clauses]
    · unfold sendMvuAecpCommandCall sendMvuAecpCommand
      rw [tryWithCatch_two_clauses]
  · intro convert messageType controllerEntityID talkerEntityID talkerStreamIndex
      listenerEntityID listenerStreamIndex connectionIndex
    refine ⟨?_, ?_, ?_, ?_⟩
    · intro hbuild
      unfold sendAcmpCommand sendAcmpCommandBody
      simp only [hbuild]
      rfl
    · intro frame hbuild hraise
      have htrace : sendAcmpCommand layer convert pi messageType controllerEntityID talkerEntityID
          talkerStreamIndex listenerEntityID listenerStreamIndex connectionIndex =
          Event.sendAcmpCommand frame ::
            (runCompletions (acmpCompletion convert) (pi.sendAcmpCommand frame).completions ++
              [Event.onAcmpResult none ControlStatus.InternalError]) := by
        unfold sendAcmpCommand sendAcmpCommandBody
        simp only [hbuild, hraise]
        rfl
      refine ⟨htrace, ?_⟩
      intro hcalls
      rw [htrace, hcalls]
      rfl
    · unfold sendAcmpCommandCall
      rw [tryWithCatch_two_clauses]
    · unfold sendAcmpCommandCall sendAcmpCommand
      rw [tryWithCatch_two_clauses]
  · intro command status
    unfold reflectAecpCommandCall
    rw [tryWithCatch_catch_all]
    exact ⟨rfl, rfl⟩
  · intro commandAem status payload
    unfold sendAemAecpResponseCall
    rw [tryWithCatch_catch_all]
    exact ⟨rfl, rfl⟩

/-- Witness of C12: an AEM command on a frame layer whose `create()` raises,
and on a transport whose send raises without calling the closure: in both the
`try` block ends with the failure, the handler is invoked once, with
`InternalError`, and the call ends normally. -/
theorem unexpected_failure_reports_internal_error_witness :
    buildAemAecpCommand failingLayer (sampleTransport 0) 1 2 3 4 [5, 6] = .error .other ∧
    sendAemAecpCommand failingLayer sampleAemStatus (sampleTransport 0) 1 2 3 4 [5, 6] =
      [Event.onAemResult none AemCommandStatus.InternalError] ∧
    (sendAemAecpCommandBody sampleLayer sampleAemStatus raisingTransport 1 2 3 4 [5, 6]).2 =
      .error .other ∧
    sendAemAecpCommand sampleLayer sampleAemStatus raisingTransport 1 2 3 4 [5, 6] =
      [Event.sendAecpCommand
        (.aem { srcAddress := 0x001B92000001, destAddress := 3, messageType := 0, status := 0,
                targetEntityID := 2, controllerEntityID := 1, sequenceID := 0,
                unsolicited := false, commandType := 4, commandSpecificData := [5, 6] }) 3,
       Event.onAemResult none AemCommandStatus.InternalError] ∧
    (sendAemAecpCommandCall sampleLayer sampleAemStatus raisingTransport 1 2 3 4 [5, 6]).2 =
      .ok () ∧
    reflectAecpCommandTry sampleLayer raisingTransport (.aem sampleCommand) 1 =
      .error .other ∧
    (reflectAecpCommandCall sampleLayer raisingTransport (.aem sampleCommand) 1).2 = .ok () ∧
    resultCalls (sendAemAecpCommand sampleLayer sampleAemStatus raisingTransport 1 2 3 4
      [5, 6]) = [Event.onAemResult none AemCommandStatus.InternalError] :=
  ⟨rfl,
   ((unexpected_failure_reports_internal_error failingLayer (sampleTransport 0)).1
      sampleAemStatus 1 2 3 4 [5, 6]).1 rfl,
   rfl,
   (((unexpected_failure_reports_internal_error sampleLayer raisingTransport).1
      sampleAemStatus 1 2 3 4 [5, 6]).2.1 _ rfl rfl).2 rfl,
   (((unexpected_failure_reports_internal_error sampleLayer raisingTransport).1
      sampleAemStatus 1 2 3 4 [5, 6]).2.2.1),
   rfl,
   ((unexpected_failure_reports_internal_error sampleLayer raisingTransport).2.2.2.2.1
      (.aem sampleCommand) 1).1,
   by decide⟩

/-! ## The internal lock -/

/-- Counterexample to C13 as stated: the events of `setEntityCapabilities` are
the acquisition of the internal lock, the mark-needs-advertise call on the
protocol interface, and the release of the internal lock, so a call into the
transport occurs while the lock is held. -/
theorem setter_calls_transport_under_internal_lock :
    (setEntityCapabilities (sampleTransport 0) sampleEntity 5).2 =
      [Event.acquireInternalLock,
       Event.setEntityNeedsAdvertise [AdvertiseFlag.EntityCapabilities] none,
       Event.releaseInternalLock] ∧
    (Event.setEntityNeedsAdvertise [AdvertiseFlag.EntityCapabilities] none).isTransportCall
      = true ∧
    lockHeldAcrossTransportCall 0 (setEntityCapabilities (sampleTransport 0) sampleEntity 5).2
      = true := by
  decide

/-- C13 (amended): each of the five setters acquires the internal lock, makes
its mark-needs-advertise call on the protocol interface while holding it, and
then releases it: that call occurs between the acquisition and the release.
The other operations of the core (enable and disable advertising, lock,
unlock, shutdown) never acquire the internal lock, so none of their calls into
the transport occurs while it is held. -/
theorem internal_lock_held_only_by_setters (pi : ProtocolInterface) (e : LocalEntity) :
    (∀ X : EntityCapabilities,
      (setEntityCapabilities pi e X).2 =
        [Event.acquireInternalLock,
         Event.setEntityNeedsAdvertise [AdvertiseFlag.EntityCapabilities] none,
         Event.releaseInternalLock] ∧
      lockHeldAcrossTransportCall 0 (setEntityCapabilities pi e X).2 = true) ∧
    (∀ Y : UniqueIdentifier,
      (setAssociationID pi e Y).2 =
        [Event.acquireInternalLock,
         Event.setEntityNeedsAdvertise [AdvertiseFlag.AssociationID] none,
         Event.releaseInternalLock] ∧
      lockHeldAcrossTransportCall 0 (setAssociationID pi e Y).2 = true) ∧
    (∀ (validTime : Nat) (interfaceIndex : Option AvbInterfaceIndex),
      (setValidTime pi e validTime interfaceIndex).2 =
        [Event.acquireInternalLock,
         Event.setEntityNeedsAdvertise [AdvertiseFlag.ValidTime] interfaceIndex,
         Event.releaseInternalLock] ∧
      lockHeldAcrossTransportCall 0 (setValidTime pi e validTime interfaceIndex).2 = true) ∧
    (∀ (gptpGrandmasterID : UniqueIdentifier) (interfaceIndex : AvbInterfaceIndex),
      (setGptpGrandmasterID pi e gptpGrandmasterID interfaceIndex).2 =
        [Event.acquireInternalLock,
         Event.setEntityNeedsAdvertise [AdvertiseFlag.GptpGrandmasterID] (some interfaceIndex),
         Event.releaseInternalLock] ∧
      lockHeldAcrossTransportCall 0
        (setGptpGrandmasterID pi e gptpGrandmasterID interfaceIndex).2 = true) ∧
    (∀ (gptpDomainNumber : Nat) (interfaceIndex : AvbInterfaceIndex),
      (setGptpDomainNumber pi e gptpDomainNumber interfaceIndex).2 =
        [Event.acquireInternalLock,
         Event.setEntityNeedsAdvertise [AdvertiseFlag.GptpDomainNumber] (some interfaceIndex),
         Event.releaseInternalLock] ∧
      lockHeldAcrossTransportCall 0
        (setGptpDomainNumber pi e gptpDomainNumber interfaceIndex).2 = true) ∧
    (∀ (d : Nat) (interfaceIndex : Option AvbInterfaceIndex),
      acquiresInternalLock (enableEntityAdvertising pi e d interfaceIndex).2.2 = false ∧
      lockHeldAcrossTransportCall 0 (enableEntityAdvertising pi e d interfaceIndex).2.2
        = false) ∧
    (∀ interfaceIndex : Option AvbInterfaceIndex,
      acquiresInternalLock (disableEntityAdvertising pi e interfaceIndex).2 = false ∧
      lockHeldAcrossTransportCall 0 (disableEntityAdvertising pi e interfaceIndex).2 = false) ∧
    (acquiresInternalLock (lock pi e).2 = false ∧
      lockHeldAcrossTransportCall 0 (lock pi e).2 = false) ∧
    (acquiresInternalLock (unlock pi e).2 = false ∧
      lockHeldAcrossTransportCall 0 (unlock pi e).2 = false) ∧
    (acquiresInternalLock (shutdown pi e).2 = false ∧
      lockHeldAcrossTransportCall 0 (shutdown pi e).2 = false) :=
  ⟨fun _ => ⟨rfl, rfl⟩, fun _ => ⟨rfl, rfl⟩, fun _ _ => ⟨rfl, rfl⟩, fun _ _ => ⟨rfl, rfl⟩,
   fun _ _ => ⟨rfl, rfl⟩, fun _ _ => ⟨rfl, rfl⟩, fun _ => ⟨rfl, rfl⟩, ⟨rfl, rfl⟩, ⟨rfl, rfl⟩,
   ⟨rfl, rfl⟩⟩

end Avdecc
